import Mathlib

/-!
Verification of the Ocea pond-monitoring telemetry/alerting core.

Shallow embedding of the ingestion, threshold-alerting, deduplication,
resolution, SMS/broadcast dispatch and anomaly-detection code
(`app/services/alert_service.py`, `app/services/sms_service.py`,
`app/mqtt/simple_client.py`, `app/mqtt/client.py`,
`app/ml/anomaly_detection_new.py`, `app/ml/anomaly_detection_simple.py`).

Numeric sensor values are modelled as rationals; Python `datetime`
instants as natural (or integer) numbers of seconds; a Python float
division by zero is modelled as an explicit `Except.error` (Python
raises `ZeroDivisionError`); `None`-able record fields as `Option`.
Python string formatting of floats (`f"{v}"`, `f"{v:.2f}"`) is
abstracted by an explicit formatter parameter `fmt : ℚ → String`, and
`datetime.fromisoformat` / `datetime.fromtimestamp` by parser
parameters, since these are runtime-library functions, not repository
code.
-/

namespace Ocea

/-- Alert severity levels (`app/models`: low < medium < high < critical). -/
inductive Sev where
  | low
  | medium
  | high
  | critical
deriving DecidableEq, Repr

/-- `severity.value` strings used in stored documents and alert types. -/
def sev_str : Sev → String
  | .low => "low"
  | .medium => "medium"
  | .high => "high"
  | .critical => "critical"

/-- A stored alert document (the `alerts` Mongo collection).
`id` models the Mongo `_id`; time is in seconds. -/
structure AlertDoc where
  id : Nat
  pond_id : String
  sensor_reading_id : Option Nat
  alert_type : String
  parameter : String
  current_value : ℚ
  threshold_value : Option ℚ
  severity : Sev
  message : String
  is_resolved : Bool
  sms_sent : Bool
  created_at : Nat
  resolved_at : Option Nat
  resolved_by : Option String
deriving DecidableEq, Repr

/-- Side effects of alert creation: an SMS attempt and the WebSocket
broadcast (`websocket_manager.broadcast_alert`). -/
inductive Event where
  | sms (pond parameter : String) (sev : Sev) (ok : Bool)
  | broadcast (pond parameter : String) (sev : Sev) (sms_sent : Bool)
deriving DecidableEq, Repr

def Event.isSms : Event → Bool
  | .sms _ _ _ _ => true
  | .broadcast _ _ _ _ => false

def Event.isBroadcast : Event → Bool
  | .sms _ _ _ _ => false
  | .broadcast _ _ _ _ => true

/-- Twilio configuration state (`sms_service.py`): whether the client
object was initialised and the two phone-number settings. -/
structure SmsCfg where
  client_ok : Bool
  from_number : String
  to_number : String

namespace SMS

/-- `TwilioSMSService.is_enabled`: client present and both numbers set
(non-empty strings are truthy in Python). -/
def is_enabled (c : SmsCfg) : Bool :=
  c.client_ok && decide (c.from_number ≠ "") && decide (c.to_number ≠ "")

/-- `TwilioSMSService.send_alert_sms`. When disabled it returns `False`.
When enabled, the body evaluates `logger.time.strftime(...)` while
building `formatted_message`; `logging.Logger` has no `time` attribute,
so an `AttributeError` is raised and swallowed by the blanket
`except Exception` clause, which returns `False`.  Hence the call never
returns `True`. -/
def send_alert_sms (c : SmsCfg) : Bool :=
  if !(is_enabled c) then false
  else false

/-- `send_critical_alert` delegates to `send_alert_sms`. -/
def send_critical_alert (c : SmsCfg) : Bool := send_alert_sms c

/-- `send_high_alert` delegates to `send_alert_sms`. -/
def send_high_alert (c : SmsCfg) : Bool := send_alert_sms c

end SMS

/-- Update the first element satisfying `p` (Mongo `update_one`),
returning the new list and, when a match exists, the (old, new) pair. -/
def updateFirst {α : Type} (p : α → Bool) (f : α → α) :
    List α → List α × Option (α × α)
  | [] => ([], none)
  | x :: xs =>
    if p x then (f x :: xs, some (x, f x))
    else
      let r := updateFirst p f xs
      (x :: r.1, r.2)

namespace AlertService

/-- Default soft thresholds from `app/config.py` (`Settings`). -/
def ph_min : ℚ := 6.5
def ph_max : ℚ := 8.5
def temperature_min : ℚ := 20
def temperature_max : ℚ := 30
def dissolved_oxygen_min : ℚ := 5
def dissolved_oxygen_max : ℚ := 15
def turbidity_max : ℚ := 10
def nitrate_max : ℚ := 40
def nitrite_max : ℚ := 0.5
def ammonia_max : ℚ := 0.5
def water_level_min : ℚ := 0.5
def water_level_max : ℚ := 3

/-- One entry of the `threshold_checks` list of
`AlertService.check_sensor_thresholds`: a parameter name, the reading's
value for it, and the optional bounds (`"x" in check` ↔ `isSome`). -/
structure Check where
  parameter : String
  value : Option ℚ
  min_threshold : Option ℚ
  max_threshold : Option ℚ
  critical_min : Option ℚ
  critical_max : Option ℚ
deriving DecidableEq, Repr

/-- A sensor-reading document as consumed by
`check_sensor_thresholds` (`sensor_reading.get(...)`). -/
structure SRead where
  pond_id : Option String := none
  rid : Option Nat := none
  ph : Option ℚ := none
  temperature : Option ℚ := none
  dissolved_oxygen : Option ℚ := none
  turbidity : Option ℚ := none
  nitrate : Option ℚ := none
  nitrite : Option ℚ := none
  ammonia : Option ℚ := none
  water_level : Option ℚ := none
deriving DecidableEq, Repr

/-- The `threshold_checks` list built by `check_sensor_thresholds`
(lines 29–86 of `alert_service.py`), with the configured bounds. -/
def threshold_checks (r : SRead) : List Check :=
  [ { parameter := "ph", value := r.ph,
      min_threshold := some ph_min, max_threshold := some ph_max,
      critical_min := some 6, critical_max := some 9 },
    { parameter := "temperature", value := r.temperature,
      min_threshold := some temperature_min, max_threshold := some temperature_max,
      critical_min := some 15, critical_max := some 35 },
    { parameter := "dissolved_oxygen", value := r.dissolved_oxygen,
      min_threshold := some dissolved_oxygen_min, max_threshold := some dissolved_oxygen_max,
      critical_min := some 3, critical_max := some 20 },
    { parameter := "turbidity", value := r.turbidity,
      min_threshold := none, max_threshold := some turbidity_max,
      critical_min := none, critical_max := some 20 },
    { parameter := "nitrate", value := r.nitrate,
      min_threshold := none, max_threshold := some nitrate_max,
      critical_min := none, critical_max := some 80 },
    { parameter := "nitrite", value := r.nitrite,
      min_threshold := none, max_threshold := some nitrite_max,
      critical_min := none, critical_max := some 1 },
    { parameter := "ammonia", value := r.ammonia,
      min_threshold := none, max_threshold := some ammonia_max,
      critical_min := none, critical_max := some 1 },
    { parameter := "water_level", value := r.water_level,
      min_threshold := some water_level_min, max_threshold := some water_level_max,
      critical_min := some 0.2, critical_max := some 4 } ]

/-- `"b" in check and value < check["b"]` for an optional lower bound. -/
def optLt (v : ℚ) : Option ℚ → Bool
  | some m => decide (v < m)
  | none => false

/-- `"b" in check and value > check["b"]` for an optional upper bound. -/
def optGt (v : ℚ) : Option ℚ → Bool
  | some m => decide (m < v)
  | none => false

/-- Condition of the critical branch (lines 97–98). -/
def crit_violated (c : Check) (v : ℚ) : Bool :=
  optLt v c.critical_min || optGt v c.critical_max

/-- Condition of the high branch (lines 111–112). -/
def soft_violated (c : Check) (v : ℚ) : Bool :=
  optLt v c.min_threshold || optGt v c.max_threshold

/-- The per-check decision of `check_sensor_thresholds` (lines 96–122):
the if/elif chain yields at most one (severity, reported threshold) per
parameter; the reported threshold is
`check.get("critical_min", check.get("critical_max"))`
resp. `check.get("min_threshold", check.get("max_threshold"))`. -/
def threshold_decision (c : Check) (v : ℚ) : Option (Sev × Option ℚ) :=
  if crit_violated c v then
    some (Sev.critical, c.critical_min.or c.critical_max)
  else if soft_violated c v then
    some (Sev.high, c.min_threshold.or c.max_threshold)
  else
    none

/-- A candidate alert as passed by `check_sensor_thresholds` to
`_create_alert` (`alert_type` is `f"{parameter}_critical"` /
`f"{parameter}_high"`). -/
structure Candidate where
  parameter : String
  value : ℚ
  severity : Sev
  threshold : Option ℚ
  alert_type : String
deriving DecidableEq, Repr

/-- All candidates a reading produces in `check_sensor_thresholds`
(`check["value"] is None` entries are skipped). -/
def candidatesOf (r : SRead) : List Candidate :=
  (threshold_checks r).filterMap fun c =>
    match c.value with
    | none => none
    | some v =>
      (threshold_decision c v).map fun st =>
        { parameter := c.parameter, value := v, severity := st.1,
          threshold := st.2,
          alert_type := c.parameter ++ "_" ++ sev_str st.1 }

/-- The anti-spam query of `AlertService._create_alert` (lines 135–141):
an unresolved alert with the same `pond_id`, `parameter` AND
`alert_type`, created within the last 15 minutes (900 s). -/
def dup_query (store : List AlertDoc) (pond parameter ty : String) (now : Nat) :
    Option AlertDoc :=
  store.find? fun a =>
    decide (a.pond_id = pond) && decide (a.parameter = parameter) &&
    decide (a.alert_type = ty) && !a.is_resolved &&
    decide (now - 900 ≤ a.created_at)

/-- The alert message of `_create_alert` (lines 147–149).  The `none`
threshold branch is unreachable from `check_sensor_thresholds` (every
fired branch has the reported bound present; a Python `None` there
would raise in the `<` comparison). -/
def mk_message (fmt : ℚ → String) (parameter : String) (v : ℚ)
    (thr : Option ℚ) : String :=
  match thr with
  | some t =>
    parameter ++ " is " ++ (if v < t then "below" else "above") ++
      " threshold: " ++ fmt v ++ " (limit: " ++ fmt t ++ ")"
  | none => ""

/-- The `alert_data` document `_create_alert` inserts (lines 151–167). -/
def new_doc (fmt : ℚ → String) (store : List AlertDoc)
    (pond parameter ty : String) (v : ℚ) (thr : Option ℚ) (sev : Sev)
    (rid : Option Nat) (now : Nat) : AlertDoc :=
  { id := store.length, pond_id := pond, sensor_reading_id := rid,
    alert_type := ty, parameter := parameter, current_value := v,
    threshold_value := thr, severity := sev,
    message := mk_message fmt parameter v thr,
    is_resolved := false, sms_sent := false, created_at := now,
    resolved_at := none, resolved_by := none }

/-- `AlertService._create_alert` (lines 129–202): suppress when
`dup_query` finds a match, otherwise insert the document, attempt SMS
for high/critical severities, flip `sms_sent` on success, and broadcast. -/
def create_alert (fmt : ℚ → String) (cfg : SmsCfg) (store : List AlertDoc)
    (pond parameter ty : String) (v : ℚ) (thr : Option ℚ) (sev : Sev)
    (rid : Option Nat) (now : Nat) :
    List AlertDoc × Option AlertDoc × List Event :=
  match dup_query store pond parameter ty now with
  | some _ => (store, none, [])
  | none =>
    let doc : AlertDoc := new_doc fmt store pond parameter ty v thr sev rid now
    let store1 := store ++ [doc]
    if sev = Sev.high ∨ sev = Sev.critical then
      let ok :=
        if sev = Sev.critical then SMS.send_critical_alert cfg
        else SMS.send_high_alert cfg
      if ok then
        let store2 :=
          (updateFirst (fun a => decide (a.id = doc.id))
            (fun a => { a with sms_sent := true }) store1).1
        let doc2 := { doc with sms_sent := true }
        (store2, some doc2,
          [Event.sms pond parameter sev ok,
           Event.broadcast pond parameter sev true])
      else
        (store1, some doc,
          [Event.sms pond parameter sev ok,
           Event.broadcast pond parameter sev false])
    else
      (store1, some doc, [Event.broadcast pond parameter sev false])

/-- `AlertService.resolve_alert` (lines 233–256): `update_one` on the
`_id` filter `$set`s `is_resolved`, `resolved_at := now`,
`resolved_by := user`; returns `modified_count > 0`, i.e. whether a
matching document exists and the update changed it. -/
def resolve_alert (store : List AlertDoc) (i : Nat) (u : Option String)
    (now : Nat) : List AlertDoc × Bool :=
  let r := updateFirst (fun a => decide (a.id = i))
    (fun a => { a with is_resolved := true, resolved_at := some now,
                       resolved_by := u }) store
  (r.1, r.2.elim false (fun pr => decide (pr.1 ≠ pr.2)))

/-- `AlertService.get_active_alerts` (lines 204–217): unresolved alerts,
optionally filtered by pond, sorted by `created_at` descending,
`to_list(length=100)`. -/
def get_active_alerts (store : List AlertDoc) (pond : Option String) :
    List AlertDoc :=
  let filtered := store.filter fun a =>
    !a.is_resolved &&
    (match pond with
     | some p => decide (a.pond_id = p)
     | none => true)
  (filtered.insertionSort fun a b => b.created_at ≤ a.created_at).take 100

/-- The dashboard statistics record of `get_alert_statistics`
(`by_severity`/`by_parameter` breakdowns omitted: the claims only
concern the counts kept here). -/
structure Stats where
  total_alerts : Nat
  active_alerts : Nat
  period_days : Nat

/-- `AlertService.get_alert_statistics` (lines 258–306): alerts of the
trailing `days`-day window, and `active_alerts` as the length of
`get_active_alerts`. -/
def get_alert_statistics (store : List AlertDoc) (pond : Option String)
    (days : Nat) (now : Nat) : Stats :=
  let start := now - days * 86400
  let inWindow := store.filter fun a =>
    decide (start ≤ a.created_at) &&
    (match pond with
     | some p => decide (a.pond_id = p)
     | none => true)
  { total_alerts := inWindow.length,
    active_alerts := (get_active_alerts store pond).length,
    period_days := days }

/-- One submission to `_create_alert` or one `resolve_alert` call, with
its wall-clock time. -/
inductive AStep where
  | submit (pond parameter ty : String) (v : ℚ) (thr : Option ℚ)
      (sev : Sev) (rid : Option Nat) (now : Nat)
  | resolve (i : Nat) (u : Option String) (now : Nat)

/-- Effect of one step on the alerts collection. -/
def run_astep (fmt : ℚ → String) (cfg : SmsCfg) (store : List AlertDoc) :
    AStep → List AlertDoc
  | .submit pond parameter ty v thr sev rid now =>
    (create_alert fmt cfg store pond parameter ty v thr sev rid now).1
  | .resolve i u now => (resolve_alert store i u now).1

/-- Run a sequence of creations/resolutions from the empty collection. -/
def run_asteps (fmt : ℚ → String) (cfg : SmsCfg) (steps : List AStep) :
    List AlertDoc :=
  steps.foldl (run_astep fmt cfg) []

end AlertService

/-- Two alerts created more than the 15-minute cooldown apart. -/
def sepOK (a b : AlertDoc) : Prop :=
  a.created_at + 900 < b.created_at ∨ b.created_at + 900 < a.created_at

/-- The claimed dedup relation over `(pond_id, parameter)`: any two
unresolved alerts of the same pond and parameter are created more than
15 minutes apart. -/
def noDupPP (a b : AlertDoc) : Prop :=
  a.is_resolved = false → b.is_resolved = false →
  a.pond_id = b.pond_id → a.parameter = b.parameter → sepOK a b

/-- The dedup relation the AlertService code actually enforces, keyed by
`(pond_id, parameter, alert_type)`. -/
def noDupPPT (a b : AlertDoc) : Prop :=
  a.is_resolved = false → b.is_resolved = false →
  a.pond_id = b.pond_id → a.parameter = b.parameter →
  a.alert_type = b.alert_type → sepOK a b

/-- The JSON value found under the `timestamp` key of an inbound
payload: absent, a string, or a number. -/
inductive TsTag where
  | absent
  | str (s : String)
  | num (q : ℚ)
deriving DecidableEq, Repr

/-- Python truthiness of the timestamp field (`if timestamp_str:`):
`None`, `""` and `0` are falsy. -/
def TsTag.truthy : TsTag → Bool
  | .absent => false
  | .str s => decide (s ≠ "")
  | .num q => decide (q ≠ 0)

/-- A decoded flat JSON payload from the sensor-data topic: `pond_id`,
`device_id`, `timestamp` and the numeric parameters, each optional. -/
structure PMsg where
  pond_id : Option String := none
  device_id : Option String := none
  timestamp : TsTag := .absent
  ph : Option ℚ := none
  temperature : Option ℚ := none
  dissolved_oxygen : Option ℚ := none
  turbidity : Option ℚ := none
  nitrate : Option ℚ := none
  nitrite : Option ℚ := none
  ammonia : Option ℚ := none
  water_level : Option ℚ := none
  salinity : Option ℚ := none
deriving DecidableEq, Repr

/-- `data.get(name)` / `getattr(reading, name, None)` for the numeric
parameters. -/
def readParam (d : PMsg) : String → Option ℚ
  | "ph" => d.ph
  | "temperature" => d.temperature
  | "dissolved_oxygen" => d.dissolved_oxygen
  | "turbidity" => d.turbidity
  | "nitrate" => d.nitrate
  | "nitrite" => d.nitrite
  | "ammonia" => d.ammonia
  | "water_level" => d.water_level
  | "salinity" => d.salinity
  | _ => none

namespace SimpleMQTT

/-- A stored `sensor_readings` document of
`SimpleMQTTHandler._process_pond_data`; both `timestamp` and
`created_at` are `datetime.utcnow()` (the payload timestamp is ignored
on this path). -/
structure SReading where
  pond_id : String
  device_id : String
  timestamp : Nat
  ph : Option ℚ
  temperature : Option ℚ
  dissolved_oxygen : Option ℚ
  turbidity : Option ℚ
  nitrate : Option ℚ
  nitrite : Option ℚ
  ammonia : Option ℚ
  water_level : Option ℚ
  created_at : Nat
deriving DecidableEq, Repr

/-- The two Mongo collections the simple handler writes. -/
structure SState where
  readings : List SReading
  alerts : List AlertDoc
deriving DecidableEq, Repr

/-- Per-parameter limits of the MVP `thresholds` dict in
`_check_thresholds` (each key optional). -/
structure SLimits where
  min : Option ℚ
  max : Option ℚ
  critical_min : Option ℚ
  critical_max : Option ℚ

/-- The `thresholds` dict of `SimpleMQTTHandler._check_thresholds`
(lines 158–166), in insertion order; `dissolved_oxygen` has no
`critical_max`, `water_level` no critical bounds, and `nitrite` is
absent. -/
def simple_limits : List (String × SLimits) :=
  [ ("ph", ⟨some AlertService.ph_min, some AlertService.ph_max, some 6, some 9⟩),
    ("temperature", ⟨some AlertService.temperature_min, some AlertService.temperature_max, some 15, some 35⟩),
    ("dissolved_oxygen", ⟨some AlertService.dissolved_oxygen_min, some AlertService.dissolved_oxygen_max, some 3, none⟩),
    ("turbidity", ⟨none, some AlertService.turbidity_max, none, some 20⟩),
    ("nitrate", ⟨none, some AlertService.nitrate_max, none, some 80⟩),
    ("ammonia", ⟨none, some AlertService.ammonia_max, none, some 1⟩),
    ("water_level", ⟨some AlertService.water_level_min, some AlertService.water_level_max, none, none⟩) ]

/-- A value violates one of the critical bounds of the MVP limits. -/
def scrit_violated (l : SLimits) (v : ℚ) : Bool :=
  AlertService.optLt v l.critical_min || AlertService.optGt v l.critical_max

/-- A value violates one of the soft bounds of the MVP limits. -/
def ssoft_violated (l : SLimits) (v : ℚ) : Bool :=
  AlertService.optLt v l.min || AlertService.optGt v l.max

/-- The if/elif severity chain of `_check_thresholds` (lines 177–190):
critical_min, critical_max, min, max, in that order; at most one
severity and message per parameter. -/
def simple_decision (fmt : ℚ → String) (parameter : String) (l : SLimits)
    (v : ℚ) : Option (Sev × String) :=
  if AlertService.optLt v l.critical_min then
    some (Sev.critical, "CRITICAL: " ++ parameter.toUpper ++
      " dangerously low: " ++ fmt v)
  else if AlertService.optGt v l.critical_max then
    some (Sev.critical, "CRITICAL: " ++ parameter.toUpper ++
      " dangerously high: " ++ fmt v)
  else if AlertService.optLt v l.min then
    some (Sev.high, "HIGH: " ++ parameter.toUpper ++
      " below threshold: " ++ fmt v)
  else if AlertService.optGt v l.max then
    some (Sev.high, "HIGH: " ++ parameter.toUpper ++
      " above threshold: " ++ fmt v)
  else
    none

/-- The anti-spam query of `_check_thresholds` (lines 195–200): keyed by
`(pond_id, parameter)` only (no `alert_type`), with the cutoff
`utcnow` truncated to the minute minus 15 minutes. -/
def simple_dup_query (alerts : List AlertDoc) (pond parameter : String)
    (now : Nat) : Option AlertDoc :=
  alerts.find? fun a =>
    decide (a.pond_id = pond) && decide (a.parameter = parameter) &&
    !a.is_resolved && decide (now / 60 * 60 - 900 ≤ a.created_at)

/-- The per-parameter body of the `_check_thresholds` loop (lines
168–224): skip absent values, decide severity, suppress on a recent
unresolved `(pond_id, parameter)` alert, otherwise insert the alert
document (`threshold_value` is `limits.get('min', limits.get('max'))`
regardless of which bound fired). Notification scheduling is a side
effect not kept in this state. -/
def simple_param_step (fmt : ℚ → String) (d : PMsg) (pond : String)
    (rid : Nat) (now : Nat) (st : SState) (pl : String × SLimits) :
    SState :=
  match readParam d pl.1 with
  | none => st
  | some v =>
    match simple_decision fmt pl.1 pl.2 v with
    | none => st
    | some sm =>
      match simple_dup_query st.alerts pond pl.1 now with
      | some _ => st
      | none =>
        let doc : AlertDoc :=
          { id := st.alerts.length, pond_id := pond,
            sensor_reading_id := some rid,
            alert_type := pl.1 ++ "_" ++ sev_str sm.1, parameter := pl.1,
            current_value := v, threshold_value := pl.2.min.or pl.2.max,
            severity := sm.1, message := sm.2, is_resolved := false,
            sms_sent := false, created_at := now, resolved_at := none,
            resolved_by := none }
        { st with alerts := st.alerts ++ [doc] }

/-- `SimpleMQTTHandler._check_thresholds` (lines 152–230). -/
def check_thresholds (fmt : ℚ → String) (st : SState) (pond : String)
    (d : PMsg) (rid : Nat) (now : Nat) : SState :=
  simple_limits.foldl (simple_param_step fmt d pond rid now) st

/-- The `reading_doc` dict of `_process_pond_data` (lines 94–107). -/
def simple_doc (d : PMsg) (pond : String) (now : Nat) : SReading :=
  { pond_id := pond, device_id := d.device_id.getD "unknown",
    timestamp := now, ph := d.ph, temperature := d.temperature,
    dissolved_oxygen := d.dissolved_oxygen, turbidity := d.turbidity,
    nitrate := d.nitrate, nitrite := d.nitrite, ammonia := d.ammonia,
    water_level := d.water_level, created_at := now }

/-- `SimpleMQTTHandler._process_pond_data` (lines 88–137): default the
pond to `"pond_001"` when `pond_id` is absent, store the reading with
`utcnow` timestamps, then check thresholds. -/
def process_pond_data (fmt : ℚ → String) (st : SState) (d : PMsg)
    (now : Nat) : SState :=
  let pond := d.pond_id.getD "pond_001"
  let doc : SReading := simple_doc d pond now
  let rid := st.readings.length
  let st1 : SState := { st with readings := st.readings ++ [doc] }
  check_thresholds fmt st1 pond d rid now

/-- One inbound pond-data message, or one resolution of an alert of the
shared `alerts` collection. -/
inductive SStep where
  | msg (d : PMsg) (now : Nat)
  | resolve (i : Nat) (u : Option String) (now : Nat)

/-- Effect of one step on the simple handler's state. -/
def run_sstep (fmt : ℚ → String) (st : SState) : SStep → SState
  | .msg d now => process_pond_data fmt st d now
  | .resolve i u now =>
    { st with alerts := (AlertService.resolve_alert st.alerts i u now).1 }

/-- Run a message/resolution sequence from empty collections. -/
def run_ssteps (fmt : ℚ → String) (steps : List SStep) : SState :=
  steps.foldl (run_sstep fmt) ⟨[], []⟩

end SimpleMQTT

namespace MQTTClient

/-- A stored `sensor_readings` document of
`MQTTHandler._process_pond_sensor_data_sync`. Time is in integer
seconds (`datetime` instants). -/
structure CReading where
  pond_id : String
  device_id : String
  timestamp : Int
  ph : Option ℚ
  temperature : Option ℚ
  dissolved_oxygen : Option ℚ
  turbidity : Option ℚ
  nitrate : Option ℚ
  nitrite : Option ℚ
  ammonia : Option ℚ
  water_level : Option ℚ
  created_at : Int
deriving DecidableEq, Repr

/-- An alert document as inserted by `_check_critical_conditions_sync`
(this shape has no `parameter`/`is_resolved` fields). -/
structure CritAlert where
  pond_id : String
  alert_type : String
  message : String
  severity : Sev
  timestamp : Int
deriving DecidableEq, Repr

/-- The collections written by the sync path of `MQTTHandler`. -/
structure CState where
  readings : List CReading
  alerts : List CritAlert
deriving DecidableEq, Repr

/-- Timestamp extraction of `_process_pond_sensor_data_sync` (lines
144–153).  `fromiso` abstracts `datetime.fromisoformat` (`none` models
`ValueError`, caught and replaced by `utcnow`).  A truthy NUMERIC
timestamp raises `AttributeError` at `timestamp_str.replace(...)`,
which the inner `except (ValueError, TypeError)` does not catch: the
error escapes to the enclosing handler (modelled as `Except.error`). -/
def extract_timestamp_sync (fromiso : String → Option Int) (ts : TsTag)
    (now : Int) : Except Unit Int :=
  match ts with
  | .absent => .ok now
  | .str s =>
    if s = "" then .ok now
    else .ok ((fromiso (s.replace "Z" "+00:00")).getD now)
  | .num q =>
    if q = 0 then .ok now
    else .error ()

/-- `MQTTHandler._check_critical_conditions_sync` (lines 231–310). -/
def check_critical_conditions_sync (fmt : ℚ → String) (st : CState)
    (pond : String) (d : PMsg) (now : Int) : CState :=
  let l1 : List CritAlert :=
    match d.dissolved_oxygen with
    | some v =>
      if v < 3 then
        [⟨pond, "critical_oxygen",
          "Dangerously low dissolved oxygen: " ++ fmt v ++ " mg/L",
          Sev.critical, now⟩]
      else if v < 5 then
        [⟨pond, "low_oxygen", "Low dissolved oxygen: " ++ fmt v ++ " mg/L",
          Sev.high, now⟩]
      else []
    | none => []
  let l2 : List CritAlert :=
    match d.temperature with
    | some v =>
      if v < 15 ∨ 32 < v then
        [⟨pond, "temperature_extreme", "Extreme temperature: " ++ fmt v,
          Sev.critical, now⟩]
      else []
    | none => []
  let l3 : List CritAlert :=
    match d.ph with
    | some v =>
      if v < 6 ∨ 9 < v then
        [⟨pond, "ph_extreme", "Extreme pH level: " ++ fmt v,
          Sev.critical, now⟩]
      else []
    | none => []
  let l4 : List CritAlert :=
    match d.ammonia with
    | some v =>
      if 0.5 < v then
        [⟨pond, "high_ammonia", "High ammonia level: " ++ fmt v ++ " mg/L",
          Sev.critical, now⟩]
      else []
    | none => []
  let l5 : List CritAlert :=
    match d.nitrite with
    | some v =>
      if 0.5 < v then
        [⟨pond, "high_nitrite", "High nitrite level: " ++ fmt v ++ " mg/L",
          Sev.high, now⟩]
      else []
    | none => []
  let l := l1 ++ l2 ++ l3 ++ l4 ++ l5
  if l = [] then st else { st with alerts := st.alerts ++ l }

/-- The `reading_doc` dict of `_process_pond_sensor_data_sync`
(lines 156–169). -/
def sync_doc (d : PMsg) (pond : String) (t now : Int) : CReading :=
  { pond_id := pond, device_id := d.device_id.getD "unknown",
    timestamp := t, ph := d.ph, temperature := d.temperature,
    dissolved_oxygen := d.dissolved_oxygen, turbidity := d.turbidity,
    nitrate := d.nitrate, nitrite := d.nitrite, ammonia := d.ammonia,
    water_level := d.water_level, created_at := now }

/-- `MQTTHandler._process_pond_sensor_data_sync` (lines 136–181):
default the pond to `"unknown"` when `pond_id` is absent; an escaped
timestamp error is caught by the function-level `except`, which logs
and returns WITHOUT persisting anything. -/
def process_pond_sensor_data_sync (fmt : ℚ → String)
    (fromiso : String → Option Int) (st : CState) (d : PMsg)
    (now : Int) : CState :=
  let pond := d.pond_id.getD "unknown"
  match extract_timestamp_sync fromiso d.timestamp now with
  | .error _ => st
  | .ok t =>
    let doc : CReading := sync_doc d pond t now
    let st1 : CState := { st with readings := st.readings ++ [doc] }
    check_critical_conditions_sync fmt st1 pond d now

/-- Timestamp extraction of `MQTTHandler.process_sensor_data` (lines
374–387): strings via `fromisoformat`, numbers via
`datetime.fromtimestamp` (abstracted by `fromts`; a `none` models the
caught `ValueError`/`TypeError`); absent, falsy or unparsable values
fall back to `utcnow`. -/
def extract_timestamp_async (fromiso : String → Option Int)
    (fromts : ℚ → Option Int) (ts : TsTag) (now : Int) : Int :=
  match ts with
  | .absent => now
  | .str s =>
    if s = "" then now
    else (fromiso (s.replace "Z" "+00:00")).getD now
  | .num q =>
    if q = 0 then now
    else (fromts q).getD now

/-- A reading as built by `process_sensor_data` from a
`SensorReadingCreate` (lines 427–441; includes `salinity`). -/
structure AReading where
  pond_id : String
  timestamp : Int
  temperature : Option ℚ
  ph : Option ℚ
  dissolved_oxygen : Option ℚ
  turbidity : Option ℚ
  ammonia : Option ℚ
  nitrite : Option ℚ
  nitrate : Option ℚ
  salinity : Option ℚ
  water_level : Option ℚ
  device_id : Option String
deriving DecidableEq, Repr

/-- The reading built from `SensorReadingCreate` in
`process_sensor_data` (lines 427–441). -/
def async_doc (d : PMsg) (pond_id : String) (t : Int) : AReading :=
  { pond_id := pond_id, timestamp := t,
    temperature := d.temperature, ph := d.ph,
    dissolved_oxygen := d.dissolved_oxygen, turbidity := d.turbidity,
    ammonia := d.ammonia, nitrite := d.nitrite, nitrate := d.nitrate,
    salinity := d.salinity, water_level := d.water_level,
    device_id := d.device_id }

/-- The persistence effect of `MQTTHandler.process_sensor_data` (lines
369–457): out-of-range values are logged as warnings but the reading is
always stored.  The downstream anomaly-decision and alert steps write
other collections and each swallow their own exceptions; they cannot
undo this insert. -/
def process_sensor_data (fromiso : String → Option Int)
    (fromts : ℚ → Option Int) (readings : List AReading)
    (pond_id : String) (d : PMsg) (now : Int) : List AReading :=
  readings ++
    [async_doc d pond_id
      (extract_timestamp_async fromiso fromts d.timestamp now)]

/-- The advisory validation warnings of `process_sensor_data` (lines
409–425): they gate nothing. -/
def validation_errors (d : PMsg) : List String :=
  (match d.temperature with
   | some v => if v < -10 ∨ 50 < v then ["Temperature out of range"] else []
   | none => []) ++
  (match d.ph with
   | some v => if v < 0 ∨ 14 < v then ["pH out of range"] else []
   | none => []) ++
  (match d.dissolved_oxygen with
   | some v => if v < 0 ∨ 20 < v then ["Dissolved oxygen out of range"] else []
   | none => [])

end MQTTClient

namespace ML

/-- `AnomalyDetector.feature_columns` (identical in both detector
files). -/
def feature_columns : List String :=
  ["temperature", "ph", "dissolved_oxygen", "turbidity",
   "ammonia", "nitrite", "nitrate", "salinity", "water_level"]

/-- `AnomalyDetector.normal_ranges` (identical in
`anomaly_detection_new.py` and `anomaly_detection_simple.py`), in dict
insertion order. -/
def normal_ranges : List (String × ℚ × ℚ) :=
  [ ("temperature", 20, 30),
    ("ph", 6.5, 8.5),
    ("dissolved_oxygen", 5, 12),
    ("turbidity", 0, 50),
    ("ammonia", 0, 0.5),
    ("nitrite", 0, 0.1),
    ("nitrate", 0, 40),
    ("salinity", 0, 35),
    ("water_level", 50, 200) ]

/-- `AnomalyDetector.critical_ranges` (identical in both files). -/
def critical_ranges : List (String × ℚ × ℚ) :=
  [ ("temperature", 15, 35),
    ("ph", 6, 9),
    ("dissolved_oxygen", 3, 15),
    ("turbidity", 0, 100),
    ("ammonia", 0, 1),
    ("nitrite", 0, 0.5),
    ("nitrate", 0, 80),
    ("salinity", 0, 40),
    ("water_level", 30, 250) ]

/-- `self.critical_ranges.get(param, (min_val, max_val))`. -/
def criticalFor (p : String) (dflt : ℚ × ℚ) : ℚ × ℚ :=
  match critical_ranges.find? (fun e => decide (e.1 = p)) with
  | some e => e.2
  | none => dflt

/-- Python `max(scores)` over a non-empty list (`0.0` when empty, per
the callers' guards). -/
def pyMax : List ℚ → ℚ
  | [] => 0
  | h :: t => t.foldl max h

/-- The critical-range check at the end of each loop iteration of
`_rule_based_detection` (lines 108–111): outside the critical band,
append severity 1.0 (it runs only when the normal-range step raised no
exception). -/
def rb_crit (e : String × ℚ × ℚ) (v : ℚ) (rs : List String × List ℚ) :
    List String × List ℚ :=
  if v < (criticalFor e.1 (e.2.1, e.2.2)).1 ∨
      (criticalFor e.1 (e.2.1, e.2.2)).2 < v then
    (rs.1, rs.2 ++ [1])
  else rs

/-- The body of one `normal_ranges` loop iteration of
`_rule_based_detection` for a present value `v` (lines 99–111): the
per-parameter severity `min((min_val - value) / min_val, 1.0)` (resp.
the max side) divides by the configured bound — a zero bound makes
Python raise `ZeroDivisionError`, modelled as `Except.error` — then the
critical-range check runs. -/
def rb_param (fmt : ℚ → String) (e : String × ℚ × ℚ) (v : ℚ)
    (rs : List String × List ℚ) : Except Unit (List String × List ℚ) :=
  if v < e.2.1 then
    if e.2.1 = 0 then .error ()
    else
      .ok (rb_crit e v
        (rs.1 ++ [e.1 ++ " below normal: " ++ fmt v ++ " < " ++ fmt e.2.1],
         rs.2 ++ [min ((e.2.1 - v) / e.2.1) 1]))
  else if e.2.2 < v then
    if e.2.2 = 0 then .error ()
    else
      .ok (rb_crit e v
        (rs.1 ++ [e.1 ++ " above normal: " ++ fmt v ++ " > " ++ fmt e.2.2],
         rs.2 ++ [min ((v - e.2.2) / e.2.2) 1]))
  else .ok (rb_crit e v rs)

/-- One iteration of the `normal_ranges` loop of
`AnomalyDetector._rule_based_detection` (`anomaly_detection_new.py`,
lines 96–111).  The accumulator carries (reasons, severity_scores); an
earlier `ZeroDivisionError` propagates. -/
def rb_step (fmt : ℚ → String) (d : PMsg)
    (acc : Except Unit (List String × List ℚ)) (e : String × ℚ × ℚ) :
    Except Unit (List String × List ℚ) :=
  match acc with
  | .error u => .error u
  | .ok rs =>
    match readParam d e.1 with
    | none => .ok rs
    | some v => rb_param fmt e v rs

/-- `AnomalyDetector._rule_based_detection`
(`anomaly_detection_new.py`, lines 91–116). -/
def rule_based_detection (fmt : ℚ → String) (d : PMsg) :
    Except Unit (Bool × ℚ × List String) :=
  match normal_ranges.foldl (rb_step fmt d) (.ok ([], [])) with
  | .error u => .error u
  | .ok rs =>
    let anomaly_score := if rs.2 = [] then 0 else pyMax rs.2
    .ok (decide (0 < rs.1.length), anomaly_score, rs.1)

/-- Python substring membership `needle in hay`. -/
def containsSub (needle hay : String) : Bool :=
  decide (needle.data <:+: hay.data)

/-- The critical-range check of the simple detector's loop (lines
73–78): outside the critical band append severity 1.0, and also append
an extra reason unless the joined reasons already mention this
parameter. -/
def simple_crit (fmt : ℚ → String) (e : String × ℚ × ℚ) (v : ℚ)
    (rs : List String × List ℚ) : List String × List ℚ :=
  if v < (criticalFor e.1 (e.2.1, e.2.2)).1 ∨
      (criticalFor e.1 (e.2.1, e.2.2)).2 < v then
    let joined := String.intercalate " " rs.1
    let reasons3 :=
      if !containsSub (e.1 ++ " below normal") joined &&
         !containsSub (e.1 ++ " above normal") joined then
        rs.1 ++ [e.1 ++ " at critical level: " ++ fmt v]
      else rs.1
    (reasons3, rs.2 ++ [1])
  else rs

/-- The body of one loop iteration of the simple detector for a present
value (lines 63–78): like `rb_param` but the per-parameter severity is
NOT clamped. -/
def simple_param (fmt : ℚ → String) (e : String × ℚ × ℚ) (v : ℚ)
    (rs : List String × List ℚ) : Except Unit (List String × List ℚ) :=
  if v < e.2.1 then
    if e.2.1 = 0 then .error ()
    else
      .ok (simple_crit fmt e v
        (rs.1 ++ [e.1 ++ " below normal: " ++ fmt v ++ " < " ++ fmt e.2.1],
         rs.2 ++ [(e.2.1 - v) / e.2.1]))
  else if e.2.2 < v then
    if e.2.2 = 0 then .error ()
    else
      .ok (simple_crit fmt e v
        (rs.1 ++ [e.1 ++ " above normal: " ++ fmt v ++ " > " ++ fmt e.2.2],
         rs.2 ++ [(v - e.2.2) / e.2.2]))
  else .ok (simple_crit fmt e v rs)

/-- One iteration of the loop of `AnomalyDetector.detect_anomaly` in
`anomaly_detection_simple.py` (lines 60–78); an earlier
`ZeroDivisionError` propagates. -/
def simple_step (fmt : ℚ → String) (d : PMsg)
    (acc : Except Unit (List String × List ℚ)) (e : String × ℚ × ℚ) :
    Except Unit (List String × List ℚ) :=
  match acc with
  | .error u => .error u
  | .ok rs =>
    match readParam d e.1 with
    | none => .ok rs
    | some v => simple_param fmt e v rs

/-- `AnomalyDetector.detect_anomaly` of `anomaly_detection_simple.py`
(lines 46–90): rule-based only; the overall score is
`min(max(severity_scores), 1.0)` when any score exists, else `0.0`. -/
def detect_anomaly_simple (fmt : ℚ → String) (d : PMsg) :
    Except Unit (Bool × ℚ × List String) :=
  match normal_ranges.foldl (simple_step fmt d) (.ok ([], [])) with
  | .error u => .error u
  | .ok rs =>
    let anomaly_score := if rs.2 = [] then 0 else min (pyMax rs.2) 1
    .ok (decide (0 < rs.1.length), anomaly_score, rs.1)

/-- Descriptive statistics for one parameter
(`_configure_rule_based`). -/
structure ParamStat where
  mean : ℚ
  vmin : ℚ
  vmax : ℚ
  count : Nat
deriving DecidableEq, Repr

/-- Python `sum(values)`. -/
def listSum (l : List ℚ) : ℚ := l.foldl (· + ·) 0

/-- The `param_stats` dict of
`AnomalyDetector._configure_rule_based` (`anomaly_detection_new.py`,
lines 231–248): per feature column, mean/min/max/count of the present
values; parameters with no values are omitted. -/
def compute_param_stats (rs : List PMsg) : List (String × ParamStat) :=
  feature_columns.filterMap fun p =>
    match rs.filterMap (fun r => readParam r p) with
    | [] => none
    | h :: t =>
      some (p,
        { mean := listSum (h :: t) / ((h :: t).length : ℚ),
          vmin := t.foldl min h, vmax := t.foldl max h,
          count := (h :: t).length })

/-- Model-holding state of the new-file `AnomalyDetector`:
`is_trained`, and whether the `StandardScaler`/forests were ever fitted
(`scaler.transform` on an unfitted scaler raises, which the ML path
catches). -/
structure DState where
  is_trained : Bool
  scaler_fitted : Bool
deriving DecidableEq, Repr

/-- The dict returned by training. -/
structure TrainResult where
  status : String
  method : Option String
  parameter_statistics : List (String × ParamStat)
deriving DecidableEq, Repr

/-- `AnomalyDetector._configure_rule_based` (lines 231–257): computes
the statistics, sets `is_trained := True` (but fits no model), returns
`status success, method rule_based`. -/
def configure_rule_based (s : DState) (rs : List PMsg) :
    DState × TrainResult :=
  ({ s with is_trained := true },
   { status := "success", method := some "rule_based",
     parameter_statistics := compute_param_stats rs })

/-- `AnomalyDetector.train_model` (lines 169–229).  `sk` is
`SKLEARN_AVAILABLE`; with fewer than 50 readings it falls back to
`_configure_rule_based`.  The scikit-learn fitting on ≥ 50 readings is
an external-library computation abstracted by `mlFit`. -/
def train_model (mlFit : DState → List PMsg → DState × TrainResult)
    (sk : Bool) (s : DState) (rs : List PMsg) : DState × TrainResult :=
  if !sk then configure_rule_based s rs
  else if rs.length < 50 then configure_rule_based s rs
  else mlFit s rs

/-- `AnomalyDetector._ml_detection` (lines 118–167): with an unfitted
scaler, `self.scaler.transform` raises, the blanket `except` logs and
falls back to `_rule_based_detection`.  Inference with fitted models is
abstracted by `mlInfer`. -/
def ml_detection
    (mlInfer : DState → PMsg → Except Unit (Bool × ℚ × List String))
    (fmt : ℚ → String) (s : DState) (d : PMsg) :
    Except Unit (Bool × ℚ × List String) :=
  if !s.scaler_fitted then rule_based_detection fmt d
  else mlInfer s d

/-- `AnomalyDetector.detect_anomaly` (`anomaly_detection_new.py`, lines
80–89): ML path iff scikit-learn is available and `is_trained`. -/
def detect_anomaly
    (mlInfer : DState → PMsg → Except Unit (Bool × ℚ × List String))
    (fmt : ℚ → String) (sk : Bool) (s : DState) (d : PMsg) :
    Except Unit (Bool × ℚ × List String) :=
  if sk && s.is_trained then ml_detection mlInfer fmt s d
  else rule_based_detection fmt d

end ML

instance {e a : Type} [DecidableEq e] [DecidableEq a] :
    DecidableEq (Except e a) := fun x y =>
  match x, y with
  | .ok u, .ok v =>
    if h : u = v then isTrue (by rw [h]) else isFalse (by simp [h])
  | .error u, .error v =>
    if h : u = v then isTrue (by rw [h]) else isFalse (by simp [h])
  | .ok _, .error _ => isFalse (by simp)
  | .error _, .ok _ => isFalse (by simp)

instance : DecidableRel sepOK := fun a b => by
  unfold sepOK; infer_instance

instance : DecidableRel noDupPP := fun a b => by
  unfold noDupPP; infer_instance

instance : DecidableRel noDupPPT := fun a b => by
  unfold noDupPPT; infer_instance

/-- A concrete float formatter standing in for Python string
interpolation in closed evaluations. -/
def fmtD : ℚ → String := fun _ => ""

/-- A concrete disabled SMS configuration (no Twilio credentials). -/
def cfgD : SmsCfg := ⟨false, "", ""⟩

/-- A concrete ISO parser that accepts nothing (every string raises
`ValueError`). -/
def isoNoneD : String → Option Int := fun _ => none

/-- A concrete epoch parser mapping every number to instant 42. -/
def ftsD : ℚ → Option Int := fun _ => some 42

/-- A payload with no `pond_id` (and one in-range value). -/
def msgNoPond : PMsg := { temperature := some 25 }

/-- A payload with a `pond_id` and a truthy NUMERIC `timestamp`. -/
def msgNumTs : PMsg := { pond_id := some "p1", timestamp := .num 1700000000 }

/-- A reading whose only present value is a negative ammonia level. -/
def msgAmmonia : PMsg := { ammonia := some (-1) }

/-- A reading with `ph = 5.5` (spec example 1: violates both
`ph_min = 6.5` and `critical_min = 6.0`). -/
def readPh55 : AlertService.SRead := { pond_id := some "p1", rid := some 0, ph := some 5.5 }

/-- A reading with `ph = 6.2` (violates only the soft `ph_min`). -/
def readPh62 : AlertService.SRead := { pond_id := some "p1", rid := some 1, ph := some 6.2 }

/-- A reading with `ph = 10` (violates only the critical MAX bound). -/
def readPh10 : AlertService.SRead := { pond_id := some "p1", rid := some 2, ph := some 10 }

/-- A concrete stored unresolved alert (id 0, created at t = 0 s). -/
def alertA0 : AlertDoc :=
  { id := 0, pond_id := "p1", sensor_reading_id := none,
    alert_type := "ph_critical", parameter := "ph", current_value := 5.5,
    threshold_value := some 6, severity := .critical, message := "",
    is_resolved := false, sms_sent := false, created_at := 0,
    resolved_at := none, resolved_by := none }

/-- The two `_create_alert` submissions produced by ingesting `readPh55`
at t = 0 s and `readPh62` at t = 360 s (6 minutes later): exactly the
arguments `check_sensor_thresholds` passes for those readings. -/
def stepsC1 : List AlertService.AStep :=
  [ .submit "p1" "ph" "ph_critical" 5.5 (some 6) .critical (some 0) 0,
    .submit "p1" "ph" "ph_high" 6.2 (some AlertService.ph_min) .high (some 1) 360 ]

/-! ### Helper lemmas -/

unseal Rat.add Rat.sub Rat.mul Rat.inv Rat.ofScientific

theorem SMS.send_alert_sms_eq_false (c : SmsCfg) :
    SMS.send_alert_sms c = false := by
  unfold SMS.send_alert_sms
  split <;> rfl

theorem updateFirst_mem {α : Type} (p : α → Bool) (f : α → α) :
    ∀ {l : List α} {y : α}, y ∈ (updateFirst p f l).1 →
      y ∈ l ∨ ∃ x, x ∈ l ∧ y = f x := by
  intro l
  induction l with
  | nil => intro y hy; simp [updateFirst] at hy
  | cons x xs ih =>
    intro y hy
    by_cases hp : p x = true
    · simp [updateFirst, hp] at hy
      rcases hy with hy | hy
      · exact Or.inr ⟨x, by simp, hy⟩
      · exact Or.inl (by simp [hy])
    · simp [updateFirst, hp] at hy
      rcases hy with hy | hy
      · exact Or.inl (by simp [hy])
      · rcases ih hy with h1 | ⟨z, hz, rfl⟩
        · exact Or.inl (by simp [h1])
        · exact Or.inr ⟨z, by simp [hz], rfl⟩

theorem updateFirst_pairwise {α : Type} {R : α → α → Prop}
    (p : α → Bool) (f : α → α)
    (hL : ∀ a b, R a b → R (f a) b) (hR : ∀ a b, R a b → R a (f b)) :
    ∀ {l : List α}, l.Pairwise R → ((updateFirst p f l).1).Pairwise R := by
  intro l
  induction l with
  | nil => intro _; simp [updateFirst]
  | cons x xs ih =>
    intro h
    rcases List.pairwise_cons.mp h with ⟨hx, hxs⟩
    by_cases hp : p x = true
    · simp only [updateFirst, hp, if_pos]
      exact List.pairwise_cons.mpr ⟨fun b hb => hL x b (hx b hb), hxs⟩
    · simp only [updateFirst, hp, if_neg, Bool.false_eq_true,
        not_false_iff]
      refine List.pairwise_cons.mpr ⟨?_, ih hxs⟩
      intro y hy
      rcases updateFirst_mem p f hy with h1 | ⟨z, hz, rfl⟩
      · exact hx y h1
      · exact hR x z (hx z hz)

theorem updateFirst_of_find? {α : Type} (p : α → Bool) (f : α → α)
    (hp : ∀ x, p x = true → p (f x) = true) :
    ∀ (l : List α) (a : α), l.find? p = some a →
      (updateFirst p f l).2 = some (a, f a) ∧
      (updateFirst p f l).1.find? p = some (f a) := by
  intro l
  induction l with
  | nil => intro a h; simp at h
  | cons x xs ih =>
    intro a h
    by_cases hx : p x = true
    · rw [List.find?_cons_of_pos _ hx] at h
      have hax : a = x := by injection h with h; exact h.symm
      subst hax
      constructor
      · simp [updateFirst, hx]
      · simp only [updateFirst, hx, if_pos]
        exact List.find?_cons_of_pos _ (hp a hx)
    · rw [List.find?_cons_of_neg _ hx] at h
      rcases ih a h with ⟨h1, h2⟩
      constructor
      · simp only [updateFirst, hx, if_neg, Bool.false_eq_true,
          not_false_iff]
        exact h1
      · simp only [updateFirst, hx, if_neg, Bool.false_eq_true,
          not_false_iff]
        rw [List.find?_cons_of_neg _ hx]
        exact h2

theorem dup_query_none_sep (store : List AlertDoc) (pond param ty : String)
    (now : Nat) (h : AlertService.dup_query store pond param ty now = none) :
    ∀ a ∈ store, a.is_resolved = false → a.pond_id = pond →
      a.parameter = param → a.alert_type = ty →
      a.created_at + 900 < now := by
  intro a ha h1 h2 h3 h4
  have hx := List.find?_eq_none.mp h a ha
  simp [h1, h2, h3, h4] at hx
  omega

theorem create_alert_of_some (fmt : ℚ → String) (cfg : SmsCfg)
    (store : List AlertDoc) (pond param ty : String) (v : ℚ)
    (thr : Option ℚ) (sev : Sev) (rid : Option Nat) (now : Nat)
    (a : AlertDoc)
    (h : AlertService.dup_query store pond param ty now = some a) :
    AlertService.create_alert fmt cfg store pond param ty v thr sev rid now =
      (store, none, []) := by
  simp [AlertService.create_alert, h]

theorem create_alert_of_none (fmt : ℚ → String) (cfg : SmsCfg)
    (store : List AlertDoc) (pond param ty : String) (v : ℚ)
    (thr : Option ℚ) (sev : Sev) (rid : Option Nat) (now : Nat)
    (h : AlertService.dup_query store pond param ty now = none) :
    AlertService.create_alert fmt cfg store pond param ty v thr sev rid now =
      (store ++ [AlertService.new_doc fmt store pond param ty v thr sev rid now],
       some (AlertService.new_doc fmt store pond param ty v thr sev rid now),
       if sev = Sev.high ∨ sev = Sev.critical then
         [Event.sms pond param sev false, Event.broadcast pond param sev false]
       else
         [Event.broadcast pond param sev false]) := by
  simp only [AlertService.create_alert, h]
  by_cases hs : sev = Sev.high ∨ sev = Sev.critical
  · simp [hs, SMS.send_critical_alert, SMS.send_high_alert,
      SMS.send_alert_sms_eq_false]
  · simp [hs]

theorem run_astep_pairwise (fmt : ℚ → String) (cfg : SmsCfg)
    (store : List AlertDoc) (s : AlertService.AStep)
    (h : store.Pairwise noDupPPT) :
    (AlertService.run_astep fmt cfg store s).Pairwise noDupPPT := by
  cases s with
  | submit pond param ty v thr sev rid now =>
    simp only [AlertService.run_astep]
    rcases hdq : AlertService.dup_query store pond param ty now with _ | a
    · rw [create_alert_of_none fmt cfg store pond param ty v thr sev rid now hdq]
      refine List.pairwise_append.mpr ⟨h, by simp, ?_⟩
      intro a ha b hb
      simp only [List.mem_singleton] at hb
      subst hb
      intro h1 _ h3 h4 h5
      have hsep := dup_query_none_sep store pond param ty now hdq a ha h1
        (by simpa [AlertService.new_doc] using h3)
        (by simpa [AlertService.new_doc] using h4)
        (by simpa [AlertService.new_doc] using h5)
      exact Or.inl (by simpa [AlertService.new_doc] using hsep)
    · rw [create_alert_of_some fmt cfg store pond param ty v thr sev rid now a hdq]
      exact h
  | resolve i u now =>
    simp only [AlertService.run_astep, AlertService.resolve_alert]
    refine updateFirst_pairwise _ _ ?_ ?_ h
    · intro a b _ h1
      simp at h1
    · intro a b hab h1 h2
      simp at h2

theorem run_asteps_pairwise (fmt : ℚ → String) (cfg : SmsCfg)
    (steps : List AlertService.AStep) :
    (AlertService.run_asteps fmt cfg steps).Pairwise noDupPPT := by
  suffices hgen : ∀ (l : List AlertService.AStep) (st : List AlertDoc),
      st.Pairwise noDupPPT →
      (l.foldl (AlertService.run_astep fmt cfg) st).Pairwise noDupPPT by
    exact hgen steps [] (by simp)
  intro l
  induction l with
  | nil => intro st h; simpa using h
  | cons s t ih =>
    intro st h
    exact ih _ (run_astep_pairwise fmt cfg st s h)

theorem simple_dup_none_sep (alerts : List AlertDoc) (pond param : String)
    (now : Nat)
    (h : SimpleMQTT.simple_dup_query alerts pond param now = none) :
    ∀ a ∈ alerts, a.is_resolved = false → a.pond_id = pond →
      a.parameter = param → a.created_at + 900 < now := by
  intro a ha h1 h2 h3
  have hx := List.find?_eq_none.mp h a ha
  simp [h1, h2, h3] at hx
  have hk : now / 60 * 60 ≤ now := Nat.div_mul_le_self now 60
  revert hx hk
  generalize now / 60 * 60 = k
  intro hx hk
  omega

theorem simple_param_step_of_dup (fmt : ℚ → String) (d : PMsg)
    (pond : String) (rid now : Nat) (st : SimpleMQTT.SState)
    (pl : String × SimpleMQTT.SLimits) (a : AlertDoc)
    (h : SimpleMQTT.simple_dup_query st.alerts pond pl.1 now = some a) :
    SimpleMQTT.simple_param_step fmt d pond rid now st pl = st := by
  simp only [SimpleMQTT.simple_param_step]
  rcases hv : readParam d pl.1 with _ | v
  · rfl
  · rcases hd : SimpleMQTT.simple_decision fmt pl.1 pl.2 v with _ | sm
    · simp [hd]
    · simp [hd, h]

theorem simple_param_step_readings (fmt : ℚ → String) (d : PMsg)
    (pond : String) (rid now : Nat) (st : SimpleMQTT.SState)
    (pl : String × SimpleMQTT.SLimits) :
    (SimpleMQTT.simple_param_step fmt d pond rid now st pl).readings =
      st.readings := by
  simp only [SimpleMQTT.simple_param_step]
  rcases hv : readParam d pl.1 with _ | v
  · rfl
  · rcases hd : SimpleMQTT.simple_decision fmt pl.1 pl.2 v with _ | sm
    · simp [hd]
    · rcases hq : SimpleMQTT.simple_dup_query st.alerts pond pl.1 now with _ | a
      · simp [hd, hq]
      · simp [hd, hq]

theorem simple_param_step_pairwise (fmt : ℚ → String) (d : PMsg)
    (pond : String) (rid now : Nat) (st : SimpleMQTT.SState)
    (pl : String × SimpleMQTT.SLimits)
    (h : st.alerts.Pairwise noDupPP) :
    (SimpleMQTT.simple_param_step fmt d pond rid now st pl).alerts.Pairwise
      noDupPP := by
  simp only [SimpleMQTT.simple_param_step]
  rcases hv : readParam d pl.1 with _ | v
  · exact h
  · rcases hd : SimpleMQTT.simple_decision fmt pl.1 pl.2 v with _ | sm
    · simp only [hd]; exact h
    · rcases hq : SimpleMQTT.simple_dup_query st.alerts pond pl.1 now with _ | a
      · simp only [hd, hq]
        refine List.pairwise_append.mpr ⟨h, by simp, ?_⟩
        intro a ha b hb
        simp only [List.mem_singleton] at hb
        subst hb
        intro h1 _ h3 h4
        exact Or.inl (simple_dup_none_sep st.alerts pond pl.1 now hq a ha h1
          (by simpa using h3) (by simpa using h4))
      · simp only [hd, hq]; exact h

theorem check_thresholds_readings (fmt : ℚ → String)
    (st : SimpleMQTT.SState) (pond : String) (d : PMsg) (rid now : Nat) :
    (SimpleMQTT.check_thresholds fmt st pond d rid now).readings =
      st.readings := by
  suffices hgen : ∀ (l : List (String × SimpleMQTT.SLimits))
      (st : SimpleMQTT.SState),
      (l.foldl (SimpleMQTT.simple_param_step fmt d pond rid now) st).readings =
        st.readings by
    exact hgen _ st
  intro l
  induction l with
  | nil => intro st; rfl
  | cons pl t ih =>
    intro st
    rw [List.foldl_cons, ih, simple_param_step_readings]

theorem check_thresholds_pairwise (fmt : ℚ → String)
    (st : SimpleMQTT.SState) (pond : String) (d : PMsg) (rid now : Nat)
    (h : st.alerts.Pairwise noDupPP) :
    (SimpleMQTT.check_thresholds fmt st pond d rid now).alerts.Pairwise
      noDupPP := by
  suffices hgen : ∀ (l : List (String × SimpleMQTT.SLimits))
      (st : SimpleMQTT.SState), st.alerts.Pairwise noDupPP →
      (l.foldl (SimpleMQTT.simple_param_step fmt d pond rid now) st).alerts.Pairwise
        noDupPP by
    exact hgen _ st h
  intro l
  induction l with
  | nil => intro st h; exact h
  | cons pl t ih =>
    intro st h
    exact ih _ (simple_param_step_pairwise fmt d pond rid now st pl h)

theorem run_ssteps_pairwise (fmt : ℚ → String)
    (steps : List SimpleMQTT.SStep) :
    (SimpleMQTT.run_ssteps fmt steps).alerts.Pairwise noDupPP := by
  suffices hgen : ∀ (l : List SimpleMQTT.SStep) (st : SimpleMQTT.SState),
      st.alerts.Pairwise noDupPP →
      (l.foldl (SimpleMQTT.run_sstep fmt) st).alerts.Pairwise noDupPP by
    exact hgen steps ⟨[], []⟩ (by simp)
  intro l
  induction l with
  | nil => intro st h; simpa using h
  | cons s t ih =>
    intro st h
    refine ih _ ?_
    cases s with
    | msg d now =>
      exact check_thresholds_pairwise fmt _ _ d _ now h
    | resolve i u now =>
      simp only [SimpleMQTT.run_sstep, AlertService.resolve_alert]
      refine updateFirst_pairwise _ _ ?_ ?_ h
      · intro a b _ h1
        simp at h1
      · intro a b hab h1 h2
        simp at h2

/-! ### Claim C1 -/

/-- C1, counterexample.  `check_sensor_thresholds` maps a `ph = 5.5`
reading to a critical candidate (`alert_type = "ph_critical"`) and a
`ph = 6.2` reading to a high candidate (`alert_type = "ph_high"`);
submitting them through `_create_alert` six minutes apart creates TWO
unresolved alerts for the same `(pond_id, parameter) = ("p1", "ph")`
within the 15-minute cooldown window, because the suppression query
also matches on `alert_type`.  This refutes the claimed invariant. -/
theorem claim_C1_counterexample :
    AlertService.candidatesOf readPh55 =
      [⟨"ph", 5.5, .critical, some 6, "ph_critical"⟩] ∧
    AlertService.candidatesOf readPh62 =
      [⟨"ph", 6.2, .high, some AlertService.ph_min, "ph_high"⟩] ∧
    ¬ List.Pairwise noDupPP (AlertService.run_asteps fmtD cfgD stepsC1) := by
  decide

/-- C1, amended: the cooldown invariant holds for the key the code
actually uses.  (1) Over every sequence of `_create_alert` submissions
and `resolve_alert` calls, no two unresolved alerts with the same
`(pond_id, parameter, alert_type)` are created within 15 minutes of
each other; (2) a candidate arriving while an unresolved alert with its
`(pond_id, parameter, alert_type)` created within the window exists is
suppressed and creates nothing; (3) in `SimpleMQTTHandler`, whose query
omits `alert_type`, the invariant does hold for `(pond_id, parameter)`
over every message/resolution sequence; (4) its per-parameter step
likewise creates nothing when the `(pond_id, parameter)` query finds a
recent unresolved alert. -/
theorem claim_C1_amended :
    (∀ (fmt : ℚ → String) (cfg : SmsCfg) (steps : List AlertService.AStep),
      List.Pairwise noDupPPT (AlertService.run_asteps fmt cfg steps)) ∧
    (∀ (fmt : ℚ → String) (cfg : SmsCfg) (store : List AlertDoc)
       (pond param ty : String) (v : ℚ) (thr : Option ℚ) (sev : Sev)
       (rid : Option Nat) (now : Nat) (a : AlertDoc),
      AlertService.dup_query store pond param ty now = some a →
      AlertService.create_alert fmt cfg store pond param ty v thr sev rid now =
        (store, none, [])) ∧
    (∀ (fmt : ℚ → String) (steps : List SimpleMQTT.SStep),
      List.Pairwise noDupPP (SimpleMQTT.run_ssteps fmt steps).alerts) ∧
    (∀ (fmt : ℚ → String) (d : PMsg) (pond : String) (rid now : Nat)
       (st : SimpleMQTT.SState) (pl : String × SimpleMQTT.SLimits)
       (a : AlertDoc),
      SimpleMQTT.simple_dup_query st.alerts pond pl.1 now = some a →
      SimpleMQTT.simple_param_step fmt d pond rid now st pl = st) := by
  refine ⟨run_asteps_pairwise, ?_, run_ssteps_pairwise, ?_⟩
  · intro fmt cfg store pond param ty v thr sev rid now a h
    exact create_alert_of_some fmt cfg store pond param ty v thr sev rid now a h
  · intro fmt d pond rid now st pl a h
    exact simple_param_step_of_dup fmt d pond rid now st pl a h

/-- C1, witness: with an unresolved `("p1", "ph", "ph_critical")` alert
created at t = 0 s in the store, a matching candidate at t = 360 s is
suppressed: the store is unchanged and no alert or event is produced. -/
theorem claim_C1_witness :
    AlertService.create_alert fmtD cfgD [alertA0] "p1" "ph" "ph_critical"
      5.5 (some 6) .critical none 360 = ([alertA0], none, []) :=
  claim_C1_amended.2.1 fmtD cfgD [alertA0] "p1" "ph" "ph_critical"
    5.5 (some 6) .critical none 360 alertA0 (by decide)

/-! ### Claim C2 -/

/-- C2, counterexample.  Resolving alert id 0 at t = 0 s returns `true`;
resolving it AGAIN at t = 60 s also returns `true` (the claim says the
second call returns `false`), and `resolved_at` is overwritten to 60
(the claim says it keeps the value set by the first call): the
`update_one` filter matches on `_id` only, without `is_resolved`, and
always rewrites `resolved_at` to the current time. -/
theorem claim_C2_counterexample :
    (AlertService.resolve_alert [alertA0] 0 (some "op") 0).2 = true ∧
    (AlertService.resolve_alert
      (AlertService.resolve_alert [alertA0] 0 (some "op") 0).1
      0 (some "op") 60).2 = true ∧
    ((AlertService.resolve_alert
        (AlertService.resolve_alert [alertA0] 0 (some "op") 0).1
        0 (some "op") 60).1.find? (fun x => decide (x.id = 0))).map
      AlertDoc.resolved_at = some (some 60) := by
  decide

/-- C2, amended: the first resolve of an existing unresolved alert
returns `true` and sets `resolved_at := t0`; a second resolve at a
DIFFERENT time also returns `true` and overwrites `resolved_at := t1`;
a second resolve by the same user at the SAME time changes nothing and
returns `false` (the only sense in which the original idempotence
claim survives). -/
theorem claim_C2_amended (store : List AlertDoc) (i : Nat)
    (u : Option String) (t0 t1 : Nat) (a : AlertDoc)
    (hfind : store.find? (fun x => decide (x.id = i)) = some a)
    (hres : a.is_resolved = false) :
    (AlertService.resolve_alert store i u t0).2 = true ∧
    (AlertService.resolve_alert store i u t0).1.find?
        (fun x => decide (x.id = i)) =
      some { a with is_resolved := true, resolved_at := some t0,
                    resolved_by := u } ∧
    (t1 ≠ t0 →
      (AlertService.resolve_alert
        (AlertService.resolve_alert store i u t0).1 i u t1).2 = true ∧
      (AlertService.resolve_alert
          (AlertService.resolve_alert store i u t0).1 i u t1).1.find?
          (fun x => decide (x.id = i)) =
        some { a with is_resolved := true, resolved_at := some t1,
                      resolved_by := u }) ∧
    (t1 = t0 →
      (AlertService.resolve_alert
        (AlertService.resolve_alert store i u t0).1 i u t1).2 = false) := by
  have h0 := updateFirst_of_find? (fun x : AlertDoc => decide (x.id = i))
    (fun x => { x with is_resolved := true, resolved_at := some t0,
                       resolved_by := u })
    (fun x hx => by simpa using hx) store a hfind
  have h1 := updateFirst_of_find? (fun x : AlertDoc => decide (x.id = i))
    (fun x => { x with is_resolved := true, resolved_at := some t1,
                       resolved_by := u })
    (fun x hx => by simpa using hx)
    ((AlertService.resolve_alert store i u t0).1)
    ({ a with is_resolved := true, resolved_at := some t0,
              resolved_by := u })
    (by simpa [AlertService.resolve_alert] using h0.2)
  simp only [AlertService.resolve_alert] at h1
  refine ⟨?_, ?_, ?_, ?_⟩
  · simp only [AlertService.resolve_alert, h0.1, Option.elim_some]
    rw [decide_eq_true_iff]
    intro heq
    have hcontra := congrArg AlertDoc.is_resolved heq
    simp [hres] at hcontra
  · simpa [AlertService.resolve_alert] using h0.2
  · intro hne
    constructor
    · simp only [AlertService.resolve_alert, h1.1, Option.elim_some]
      rw [decide_eq_true_iff]
      intro heq
      have hcontra := congrArg AlertDoc.resolved_at heq
      simp at hcontra
      exact hne hcontra.symm
    · simpa [AlertService.resolve_alert] using h1.2
  · intro heq
    subst heq
    simp only [AlertService.resolve_alert, h1.1, Option.elim_some]
    simp

/-- C2, witness: applying the amended theorem to a concrete store with
one unresolved alert, the first resolve returns `true`. -/
theorem claim_C2_witness :
    (AlertService.resolve_alert [alertA0] 0 (some "op2") 5).2 = true :=
  (claim_C2_amended [alertA0] 0 (some "op2") 5 99 alertA0 (by decide)
    (by decide)).1

/-! ### Claim C3 -/

theorem check_critical_readings (fmt : ℚ → String)
    (st : MQTTClient.CState) (pond : String) (d : PMsg) (now : Int) :
    (MQTTClient.check_critical_conditions_sync fmt st pond d now).readings =
      st.readings := by
  simp only [MQTTClient.check_critical_conditions_sync]
  split <;> rfl

/-- C3, counterexample.  A payload WITHOUT `pond_id` is not rejected:
`SimpleMQTTHandler._process_pond_data` persists a reading with the
substituted pond id `"pond_001"`, and
`MQTTHandler._process_pond_sensor_data_sync` persists one with the
substituted pond id `"unknown"` — refuting both "no Reading is
persisted" and "no reading is stored with a substituted pond_id". -/
theorem claim_C3_counterexample :
    msgNoPond.pond_id = none ∧
    (SimpleMQTT.process_pond_data fmtD ⟨[], []⟩ msgNoPond 5).readings =
      [SimpleMQTT.simple_doc msgNoPond "pond_001" 5] ∧
    (MQTTClient.process_pond_sensor_data_sync fmtD isoNoneD ⟨[], []⟩
      msgNoPond 5).readings =
      [MQTTClient.sync_doc msgNoPond "unknown" 5 5] := by
  decide

/-- C3, amended: a message whose payload lacks `pond_id` is NOT
rejected at Parse.  `SimpleMQTTHandler` substitutes the default
`"pond_001"` and persists the reading; `MQTTHandler`'s sync path
substitutes `"unknown"` and persists the reading whenever its timestamp
extraction succeeds (the pipeline logs and returns without raising in
either case — the embedded functions are total). -/
theorem claim_C3_amended (fmt : ℚ → String) (d : PMsg)
    (hp : d.pond_id = none) :
    (∀ (st : SimpleMQTT.SState) (now : Nat),
      (SimpleMQTT.process_pond_data fmt st d now).readings =
        st.readings ++ [SimpleMQTT.simple_doc d "pond_001" now]) ∧
    (∀ (fromiso : String → Option Int) (st : MQTTClient.CState)
       (now t : Int),
      MQTTClient.extract_timestamp_sync fromiso d.timestamp now = .ok t →
      (MQTTClient.process_pond_sensor_data_sync fmt fromiso st d now).readings =
        st.readings ++ [MQTTClient.sync_doc d "unknown" t now]) := by
  constructor
  · intro st now
    simp only [SimpleMQTT.process_pond_data, hp, Option.getD_none,
      check_thresholds_readings]
  · intro fromiso st now t hext
    simp only [MQTTClient.process_pond_sensor_data_sync, hp,
      Option.getD_none, hext, check_critical_readings]

/-- C3, witness: the amended theorem applied to the concrete
no-`pond_id` payload at t = 7 on the sync client path. -/
theorem claim_C3_witness :
    (MQTTClient.process_pond_sensor_data_sync fmtD isoNoneD ⟨[], []⟩
      msgNoPond 7).readings = [MQTTClient.sync_doc msgNoPond "unknown" 7 7] :=
  (claim_C3_amended fmtD msgNoPond (by decide)).2 isoNoneD ⟨[], []⟩ 7 7
    rfl

/-! ### Claim C8 -/

/-- C8, counterexample.  A payload that DOES carry a `pond_id` but
whose `timestamp` is a (truthy) number is dropped whole by
`_process_pond_sensor_data_sync`: `timestamp_str.replace` raises an
`AttributeError` that the inner `except (ValueError, TypeError)` does
not catch, the function-level handler logs and returns, and NO reading
is persisted — refuting "accepts ... numeric epoch" and "a message is
never rejected because of its timestamp". -/
theorem claim_C8_counterexample :
    msgNumTs.pond_id = some "p1" ∧
    msgNumTs.timestamp = .num 1700000000 ∧
    MQTTClient.process_pond_sensor_data_sync fmtD isoNoneD ⟨[], []⟩
      msgNumTs 5 = ⟨[], []⟩ := by
  decide

/-- C8, amended.  On the sync pond-data path: a parsable ISO string
timestamp is used as parsed; an unparsable string, an absent field, or
a falsy value falls back to the current time and the reading is still
persisted; but a truthy NUMERIC timestamp makes the path drop the
message without persisting anything.  The async `process_sensor_data`
path accepts both forms (string via `fromisoformat`, number via
`fromtimestamp`, falling back to the current time) and always persists
the reading. -/
theorem claim_C8_amended :
    (∀ (fmt : ℚ → String) (fromiso : String → Option Int) (d : PMsg)
       (st : MQTTClient.CState) (now : Int) (s : String) (t : Int),
      d.timestamp = .str s → s ≠ "" →
      fromiso (s.replace "Z" "+00:00") = some t →
      (MQTTClient.process_pond_sensor_data_sync fmt fromiso st d now).readings =
        st.readings ++
          [MQTTClient.sync_doc d (d.pond_id.getD "unknown") t now]) ∧
    (∀ (fmt : ℚ → String) (fromiso : String → Option Int) (d : PMsg)
       (st : MQTTClient.CState) (now : Int) (s : String),
      d.timestamp = .str s → s ≠ "" →
      fromiso (s.replace "Z" "+00:00") = none →
      (MQTTClient.process_pond_sensor_data_sync fmt fromiso st d now).readings =
        st.readings ++
          [MQTTClient.sync_doc d (d.pond_id.getD "unknown") now now]) ∧
    (∀ (fmt : ℚ → String) (fromiso : String → Option Int) (d : PMsg)
       (st : MQTTClient.CState) (now : Int),
      d.timestamp = .absent →
      (MQTTClient.process_pond_sensor_data_sync fmt fromiso st d now).readings =
        st.readings ++
          [MQTTClient.sync_doc d (d.pond_id.getD "unknown") now now]) ∧
    (∀ (fmt : ℚ → String) (fromiso : String → Option Int) (d : PMsg)
       (st : MQTTClient.CState) (now : Int) (q : ℚ),
      d.timestamp = .num q → q ≠ 0 →
      MQTTClient.process_pond_sensor_data_sync fmt fromiso st d now = st) ∧
    (∀ (fromiso : String → Option Int) (fromts : ℚ → Option Int)
       (readings : List MQTTClient.AReading) (pond : String) (d : PMsg)
       (now : Int),
      MQTTClient.process_sensor_data fromiso fromts readings pond d now =
        readings ++
          [MQTTClient.async_doc d pond
            (MQTTClient.extract_timestamp_async fromiso fromts
              d.timestamp now)]) ∧
    (∀ (fromiso : String → Option Int) (fromts : ℚ → Option Int)
       (now : Int) (q : ℚ), q ≠ 0 →
      MQTTClient.extract_timestamp_async fromiso fromts (.num q) now =
        (fromts q).getD now) := by
  refine ⟨?_, ?_, ?_, ?_, ?_, ?_⟩
  · intro fmt fromiso d st now s t hts hne hiso
    simp [MQTTClient.process_pond_sensor_data_sync,
      MQTTClient.extract_timestamp_sync, hts, hne, hiso,
      check_critical_readings]
  · intro fmt fromiso d st now s hts hne hiso
    simp [MQTTClient.process_pond_sensor_data_sync,
      MQTTClient.extract_timestamp_sync, hts, hne, hiso,
      check_critical_readings]
  · intro fmt fromiso d st now hts
    simp [MQTTClient.process_pond_sensor_data_sync,
      MQTTClient.extract_timestamp_sync, hts, check_critical_readings]
  · intro fmt fromiso d st now q hts hq
    simp [MQTTClient.process_pond_sensor_data_sync,
      MQTTClient.extract_timestamp_sync, hts, hq]
  · intro fromiso fromts readings pond d now
    rfl
  · intro fromiso fromts now q hq
    simp [MQTTClient.extract_timestamp_async, hq]

/-- C8, witness: the amended theorem's parsable-string case at a
concrete input — an ISO string accepted by a parser mapping it to
instant 100 yields a persisted reading timestamped 100. -/
theorem claim_C8_witness :
    (MQTTClient.process_pond_sensor_data_sync fmtD (fun _ => some 100)
      ⟨[], []⟩
      { pond_id := some "p1", timestamp := .str "2024-01-01T00:00:00Z" }
      5).readings =
      [MQTTClient.sync_doc
        { pond_id := some "p1", timestamp := .str "2024-01-01T00:00:00Z" }
        "p1" 100 5] :=
  claim_C8_amended.1 fmtD (fun _ => some 100)
    { pond_id := some "p1", timestamp := .str "2024-01-01T00:00:00Z" }
    ⟨[], []⟩ 5 "2024-01-01T00:00:00Z" 100 rfl (by decide) rfl

/-! ### Claims C5 and C6 -/

theorem filterMap_key_filter_singleton {α β : Type} (g : α → Option β)
    (keyA : α → String) (keyB : β → String)
    (hg : ∀ a b, g a = some b → keyB b = keyA a) :
    ∀ (l : List α), (l.map keyA).Nodup → ∀ c, c ∈ l → ∀ b, g c = some b →
      (l.filterMap g).filter (fun x => decide (keyB x = keyA c)) = [b] := by
  intro l
  induction l with
  | nil => intro _ c hc; cases hc
  | cons a t ih =>
    intro hnd c hc b hgb
    rw [List.map_cons, List.nodup_cons] at hnd
    rcases List.mem_cons.mp hc with rfl | hct
    · rw [List.filterMap_cons_some hgb,
        List.filter_cons_of_pos (by simp [hg c b hgb])]
      have hrest : (t.filterMap g).filter
          (fun x => decide (keyB x = keyA c)) = [] := by
        rw [List.filter_eq_nil_iff]
        intro x hx
        rcases List.mem_filterMap.mp hx with ⟨y, hy, hgy⟩
        have hxy := hg y x hgy
        simp only [hxy, decide_eq_true_iff]
        intro heq
        exact hnd.1 (heq ▸ List.mem_map_of_mem keyA hy)
      rw [hrest]
    · cases hga : g a with
      | none =>
        rw [List.filterMap_cons_none hga]
        exact ih hnd.2 c hct b hgb
      | some b2 =>
        rw [List.filterMap_cons_some hga,
          List.filter_cons_of_neg ?_]
        · exact ih hnd.2 c hct b hgb
        · have hb2 := hg a b2 hga
          simp only [hb2, decide_eq_true_iff]
          intro heq
          exact hnd.1 (heq ▸ List.mem_map_of_mem keyA hct)

/-- The per-check candidate builder of `candidatesOf`. -/
theorem candidatesOf_eq_filterMap (r : AlertService.SRead) :
    AlertService.candidatesOf r = (AlertService.threshold_checks r).filterMap
      (fun c =>
        match c.value with
        | none => none
        | some v =>
          (AlertService.threshold_decision c v).map fun st =>
            { parameter := c.parameter, value := v, severity := st.1,
              threshold := st.2,
              alert_type := c.parameter ++ "_" ++ sev_str st.1 }) := rfl

/-- C5: a parameter value violating BOTH its critical and its soft
bounds yields exactly one reported violation, at critical severity.
(1) The per-check decision fires its critical branch; (2) over the full
`threshold_checks` list, the reading produces exactly one candidate for
that parameter, and it is critical; (3) the `SimpleMQTTHandler` if/elif
chain likewise reports critical severity (the chain makes duplicates
impossible by construction). -/
theorem claim_C5 :
    (∀ (c : AlertService.Check) (v : ℚ),
      AlertService.crit_violated c v = true →
      AlertService.soft_violated c v = true →
      AlertService.threshold_decision c v =
        some (Sev.critical, c.critical_min.or c.critical_max)) ∧
    (∀ (r : AlertService.SRead) (c : AlertService.Check) (v : ℚ),
      c ∈ AlertService.threshold_checks r → c.value = some v →
      AlertService.crit_violated c v = true →
      AlertService.soft_violated c v = true →
      (AlertService.candidatesOf r).filter
          (fun x => decide (x.parameter = c.parameter)) =
        [{ parameter := c.parameter, value := v, severity := Sev.critical,
           threshold := c.critical_min.or c.critical_max,
           alert_type := c.parameter ++ "_" ++ sev_str Sev.critical }]) ∧
    (∀ (fmt : ℚ → String) (p : String) (l : SimpleMQTT.SLimits) (v : ℚ),
      SimpleMQTT.scrit_violated l v = true →
      SimpleMQTT.ssoft_violated l v = true →
      ∃ m, SimpleMQTT.simple_decision fmt p l v =
        some (Sev.critical, m)) := by
  have hdec : ∀ (c : AlertService.Check) (v : ℚ),
      AlertService.crit_violated c v = true →
      AlertService.threshold_decision c v =
        some (Sev.critical, c.critical_min.or c.critical_max) := by
    intro c v h
    simp [AlertService.threshold_decision, h]
  refine ⟨fun c v h1 _ => hdec c v h1, ?_, ?_⟩
  · intro r c v hc hv h1 _
    have hmap : (AlertService.threshold_checks r).map
        (fun c => c.parameter) =
        ["ph", "temperature", "dissolved_oxygen", "turbidity",
         "nitrate", "nitrite", "ammonia", "water_level"] := rfl
    have hnd : ((AlertService.threshold_checks r).map
        (fun c => c.parameter)).Nodup := by
      rw [hmap]; decide
    rw [candidatesOf_eq_filterMap]
    refine filterMap_key_filter_singleton _ (fun c => c.parameter)
      (fun x : AlertService.Candidate => x.parameter) ?_ _ hnd c hc _ ?_
    · intro a b hab
      rcases hva : a.value with _ | w
      · rw [hva] at hab; cases hab
      · rw [hva] at hab
        rcases Option.map_eq_some'.mp hab with ⟨st, _, rfl⟩
        rfl
    · rw [hv]
      simp [hdec c v h1]
  · intro fmt p l v h1 _
    have h2 : AlertService.optLt v l.critical_min = true ∨
        AlertService.optGt v l.critical_max = true := by
      simpa [SimpleMQTT.scrit_violated] using h1
    rcases h2 with h | h
    · exact ⟨"CRITICAL: " ++ p.toUpper ++ " dangerously low: " ++ fmt v,
        by simp [SimpleMQTT.simple_decision, h]⟩
    · by_cases h0 : AlertService.optLt v l.critical_min = true
      · exact ⟨"CRITICAL: " ++ p.toUpper ++ " dangerously low: " ++ fmt v,
          by simp [SimpleMQTT.simple_decision, h0]⟩
      · exact ⟨"CRITICAL: " ++ p.toUpper ++ " dangerously high: " ++ fmt v,
          by simp [SimpleMQTT.simple_decision, h0, h]⟩

/-- C5, witness: spec example 1 — `ph = 5.5` against
`min 6.5 / critical_min 6.0` violates both bounds and produces exactly
one candidate, critical, for `"ph"`. -/
theorem claim_C5_witness :
    (AlertService.candidatesOf readPh55).filter
        (fun x => decide (x.parameter = "ph")) =
      [{ parameter := "ph", value := 5.5, severity := Sev.critical,
         threshold := some 6, alert_type := "ph" ++ "_" ++ sev_str Sev.critical }] :=
  claim_C5.2.1 readPh55
    { parameter := "ph", value := some 5.5,
      min_threshold := some AlertService.ph_min,
      max_threshold := some AlertService.ph_max,
      critical_min := some 6, critical_max := some 9 }
    5.5 (by decide) (by decide) (by decide) (by decide)

/-- C6, counterexample.  For `ph = 10` the value exceeds the critical
MAXIMUM (9.0) and does not violate the critical minimum (6.0), yet the
reported `threshold_value` is 6.0 — `check.get("critical_min",
check.get("critical_max"))` returns `critical_min` whenever it is
configured, not the bound that was actually violated. -/
theorem claim_C6_counterexample :
    AlertService.candidatesOf readPh10 =
      [⟨"ph", 10, .critical, some 6, "ph_critical"⟩] ∧
    AlertService.optGt 10 (some (9 : ℚ)) = true ∧
    AlertService.optLt 10 (some (6 : ℚ)) = false ∧
    (6 : ℚ) ≠ 9 := by
  decide

/-- C6, amended: the reported threshold is the FIRST-configured bound
of the fired band, not the violated one.  For critical violations it is
`critical_min` when present, else `critical_max`; dually for the soft
band (`min_threshold` else `max_threshold`); so it equals the violated
bound exactly when the violated side is the min side or the min side is
absent.  In `SimpleMQTTHandler` every created alert reports
`limits.get('min', limits.get('max'))` regardless even of the band. -/
theorem claim_C6_amended :
    (∀ (c : AlertService.Check) (v m : ℚ), c.critical_min = some m →
      AlertService.optLt v c.critical_min = true →
      AlertService.threshold_decision c v = some (Sev.critical, some m)) ∧
    (∀ (c : AlertService.Check) (v M : ℚ), c.critical_min = none →
      c.critical_max = some M →
      AlertService.optGt v c.critical_max = true →
      AlertService.threshold_decision c v = some (Sev.critical, some M)) ∧
    (∀ (c : AlertService.Check) (v m M : ℚ), c.critical_min = some m →
      c.critical_max = some M →
      AlertService.optGt v c.critical_max = true →
      AlertService.threshold_decision c v = some (Sev.critical, some m)) ∧
    (∀ (c : AlertService.Check) (v m : ℚ),
      AlertService.crit_violated c v = false →
      c.min_threshold = some m →
      AlertService.optLt v c.min_threshold = true →
      AlertService.threshold_decision c v = some (Sev.high, some m)) ∧
    (∀ (c : AlertService.Check) (v M : ℚ),
      AlertService.crit_violated c v = false →
      c.min_threshold = none → c.max_threshold = some M →
      AlertService.optGt v c.max_threshold = true →
      AlertService.threshold_decision c v = some (Sev.high, some M)) ∧
    (∀ (c : AlertService.Check) (v m M : ℚ),
      AlertService.crit_violated c v = false →
      c.min_threshold = some m → c.max_threshold = some M →
      AlertService.optGt v c.max_threshold = true →
      AlertService.threshold_decision c v = some (Sev.high, some m)) ∧
    (∀ (fmt : ℚ → String) (d : PMsg) (pond : String) (rid now : Nat)
       (st : SimpleMQTT.SState) (pl : String × SimpleMQTT.SLimits)
       (a : AlertDoc),
      a ∈ (SimpleMQTT.simple_param_step fmt d pond rid now st pl).alerts →
      a ∈ st.alerts ∨ a.threshold_value = pl.2.min.or pl.2.max) := by
  refine ⟨?_, ?_, ?_, ?_, ?_, ?_, ?_⟩
  · intro c v m hm h
    have hcrit : AlertService.crit_violated c v = true := by
      simp [AlertService.crit_violated, h]
    simp [AlertService.threshold_decision, hcrit, hm, Option.or]
  · intro c v M hm hM h
    have hcrit : AlertService.crit_violated c v = true := by
      simp [AlertService.crit_violated, h]
    simp [AlertService.threshold_decision, hcrit, hm, hM, Option.or]
  · intro c v m M hm hM h
    have hcrit : AlertService.crit_violated c v = true := by
      simp [AlertService.crit_violated, h]
    simp [AlertService.threshold_decision, hcrit, hm, Option.or]
  · intro c v m hc hm h
    have hsoft : AlertService.soft_violated c v = true := by
      simp [AlertService.soft_violated, h]
    simp [AlertService.threshold_decision, hc, hsoft, hm, Option.or]
  · intro c v M hc hm hM h
    have hsoft : AlertService.soft_violated c v = true := by
      simp [AlertService.soft_violated, h]
    simp [AlertService.threshold_decision, hc, hsoft, hm, hM, Option.or]
  · intro c v m M hc hm hM h
    have hsoft : AlertService.soft_violated c v = true := by
      simp [AlertService.soft_violated, h]
    simp [AlertService.threshold_decision, hc, hsoft, hm, Option.or]
  · intro fmt d pond rid now st pl a ha
    revert ha
    simp only [SimpleMQTT.simple_param_step]
    rcases hv : readParam d pl.1 with _ | v
    · exact fun ha => Or.inl ha
    · rcases hd : SimpleMQTT.simple_decision fmt pl.1 pl.2 v with _ | sm
      · simp only [hd]
        exact fun ha => Or.inl ha
      · rcases hq : SimpleMQTT.simple_dup_query st.alerts pond pl.1 now
          with _ | b
        · simp only [hd, hq]
          intro ha
          rcases List.mem_append.mp ha with h1 | h1
          · exact Or.inl h1
          · simp only [List.mem_singleton] at h1
            subst h1
            exact Or.inr rfl
        · simp only [hd, hq]
          exact fun ha => Or.inl ha

/-- C6, witness: the both-bounds-present, max-violated case of the
amended theorem at `ph = 10`: the decision reports critical severity
with threshold 6 (the configured `critical_min`). -/
theorem claim_C6_witness :
    AlertService.threshold_decision
      { parameter := "ph", value := some 10,
        min_threshold := some AlertService.ph_min,
        max_threshold := some AlertService.ph_max,
        critical_min := some 6, critical_max := some 9 } 10 =
      some (Sev.critical, some 6) :=
  claim_C6_amended.2.2.1
    { parameter := "ph", value := some 10,
      min_threshold := some AlertService.ph_min,
      max_threshold := some AlertService.ph_max,
      critical_min := some 6, critical_max := some 9 }
    10 6 9 rfl rfl (by decide)

/-! ### Claim C4 -/

theorem foldl_max_nonneg (t : List ℚ) (h : ℚ) (hh : 0 ≤ h)
    (ht : ∀ x ∈ t, 0 ≤ x) : 0 ≤ t.foldl max h := by
  induction t generalizing h with
  | nil => exact hh
  | cons a u ih =>
    exact ih (max h a) (le_trans hh (le_max_left h a))
      (fun x hx => ht x (by simp [hx]))

theorem foldl_max_le_one (t : List ℚ) (h : ℚ) (hh : h ≤ 1)
    (ht : ∀ x ∈ t, x ≤ 1) : t.foldl max h ≤ 1 := by
  induction t generalizing h with
  | nil => exact hh
  | cons a u ih =>
    exact ih (max h a) (max_le hh (ht a (by simp)))
      (fun x hx => ht x (by simp [hx]))

theorem pyMax_nonneg (l : List ℚ) (h0 : ∀ x ∈ l, 0 ≤ x) (hne : l ≠ []) :
    0 ≤ ML.pyMax l := by
  cases l with
  | nil => exact absurd rfl hne
  | cons h t =>
    exact foldl_max_nonneg t h (h0 h (by simp))
      (fun x hx => h0 x (by simp [hx]))

theorem pyMax_le_one (l : List ℚ) (h1 : ∀ x ∈ l, x ≤ 1) (hne : l ≠ []) :
    ML.pyMax l ≤ 1 := by
  cases l with
  | nil => exact absurd rfl hne
  | cons h t =>
    exact foldl_max_le_one t h (h1 h (by simp))
      (fun x hx => h1 x (by simp [hx]))

theorem rb_crit_mem (e : String × ℚ × ℚ) (v : ℚ)
    (rs : List String × List ℚ) :
    ∀ x ∈ (ML.rb_crit e v rs).2, x ∈ rs.2 ∨ x = 1 := by
  unfold ML.rb_crit
  split
  · intro x hx
    rcases List.mem_append.mp hx with hx | hx
    · exact Or.inl hx
    · simp only [List.mem_singleton] at hx
      exact Or.inr hx
  · exact fun x hx => Or.inl hx

theorem simple_crit_mem (fmt : ℚ → String) (e : String × ℚ × ℚ) (v : ℚ)
    (rs : List String × List ℚ) :
    ∀ x ∈ (ML.simple_crit fmt e v rs).2, x ∈ rs.2 ∨ x = 1 := by
  unfold ML.simple_crit
  split
  · intro x hx
    dsimp only at hx
    rcases List.mem_append.mp hx with hx | hx
    · exact Or.inl hx
    · simp only [List.mem_singleton] at hx
      exact Or.inr hx
  · exact fun x hx => Or.inl hx

theorem rb_param_ok (fmt : ℚ → String) (e : String × ℚ × ℚ) (v : ℚ)
    (acc : List String × List ℚ)
    (h0 : 0 ≤ e.2.1) (h2 : 0 < e.2.2) (hz : v < e.2.1 → e.2.1 ≠ 0)
    (hacc : ∀ x ∈ acc.2, 0 ≤ x ∧ x ≤ 1) :
    ∃ acc2 : List String × List ℚ,
      ML.rb_param fmt e v acc = .ok acc2 ∧ ∀ x ∈ acc2.2, 0 ≤ x ∧ x ≤ 1 := by
  unfold ML.rb_param
  by_cases hlt : v < e.2.1
  · have hne := hz hlt
    have hmi : 0 < e.2.1 := lt_of_le_of_ne h0 (Ne.symm hne)
    rw [if_pos hlt, if_neg hne]
    refine ⟨_, rfl, ?_⟩
    intro x hx
    rcases rb_crit_mem e v _ x hx with hx2 | hx2
    · rcases List.mem_append.mp hx2 with hx3 | hx3
      · exact hacc x hx3
      · simp only [List.mem_singleton] at hx3
        subst hx3
        exact ⟨le_min (div_nonneg (by linarith) hmi.le) zero_le_one,
          min_le_right _ _⟩
    · subst hx2
      exact ⟨zero_le_one, le_refl 1⟩
  · rw [if_neg hlt]
    by_cases hgt : e.2.2 < v
    · rw [if_pos hgt, if_neg (ne_of_gt h2)]
      refine ⟨_, rfl, ?_⟩
      intro x hx
      rcases rb_crit_mem e v _ x hx with hx2 | hx2
      · rcases List.mem_append.mp hx2 with hx3 | hx3
        · exact hacc x hx3
        · simp only [List.mem_singleton] at hx3
          subst hx3
          exact ⟨le_min (div_nonneg (by linarith) h2.le) zero_le_one,
            min_le_right _ _⟩
      · subst hx2
        exact ⟨zero_le_one, le_refl 1⟩
    · rw [if_neg hgt]
      refine ⟨_, rfl, ?_⟩
      intro x hx
      rcases rb_crit_mem e v _ x hx with hx2 | hx2
      · exact hacc x hx2
      · subst hx2
        exact ⟨zero_le_one, le_refl 1⟩

theorem rb_step_ok (fmt : ℚ → String) (d : PMsg) (e : String × ℚ × ℚ)
    (acc : List String × List ℚ)
    (h0 : 0 ≤ e.2.1) (h2 : 0 < e.2.2)
    (hz : ∀ v, readParam d e.1 = some v → v < e.2.1 → e.2.1 ≠ 0)
    (hacc : ∀ x ∈ acc.2, 0 ≤ x ∧ x ≤ 1) :
    ∃ acc2 : List String × List ℚ,
      ML.rb_step fmt d (.ok acc) e = .ok acc2 ∧
      ∀ x ∈ acc2.2, 0 ≤ x ∧ x ≤ 1 := by
  rcases hv : readParam d e.1 with _ | v
  · exact ⟨acc, by simp [ML.rb_step, hv], hacc⟩
  · rcases rb_param_ok fmt e v acc h0 h2 (hz v hv) hacc with ⟨acc2, hp, hb⟩
    exact ⟨acc2, by simp [ML.rb_step, hv, hp], hb⟩

theorem rb_fold_ok (fmt : ℚ → String) (d : PMsg) :
    ∀ (l : List (String × ℚ × ℚ)),
      (∀ e ∈ l, 0 ≤ e.2.1 ∧ 0 < e.2.2 ∧
        (∀ v, readParam d e.1 = some v → v < e.2.1 → e.2.1 ≠ 0)) →
      ∀ (acc : List String × List ℚ), (∀ x ∈ acc.2, 0 ≤ x ∧ x ≤ 1) →
      ∃ acc2 : List String × List ℚ,
        l.foldl (ML.rb_step fmt d) (.ok acc) = .ok acc2 ∧
        ∀ x ∈ acc2.2, 0 ≤ x ∧ x ≤ 1 := by
  intro l
  induction l with
  | nil => intro _ acc hacc; exact ⟨acc, rfl, hacc⟩
  | cons e t ih =>
    intro hl acc hacc
    have he := hl e (by simp)
    rcases rb_step_ok fmt d e acc he.1 he.2.1 he.2.2 hacc with
      ⟨acc1, hstep, hb1⟩
    rcases ih (fun x hx => hl x (by simp [hx])) acc1 hb1 with
      ⟨acc2, hfold, hb2⟩
    exact ⟨acc2, by rw [List.foldl_cons, hstep, hfold], hb2⟩

theorem simple_param_ok (fmt : ℚ → String) (e : String × ℚ × ℚ) (v : ℚ)
    (acc : List String × List ℚ)
    (h0 : 0 ≤ e.2.1) (h2 : 0 < e.2.2) (hz : v < e.2.1 → e.2.1 ≠ 0)
    (hacc : ∀ x ∈ acc.2, 0 ≤ x) :
    ∃ acc2 : List String × List ℚ,
      ML.simple_param fmt e v acc = .ok acc2 ∧ ∀ x ∈ acc2.2, 0 ≤ x := by
  unfold ML.simple_param
  by_cases hlt : v < e.2.1
  · have hne := hz hlt
    have hmi : 0 < e.2.1 := lt_of_le_of_ne h0 (Ne.symm hne)
    rw [if_pos hlt, if_neg hne]
    refine ⟨_, rfl, ?_⟩
    intro x hx
    rcases simple_crit_mem fmt e v _ x hx with hx2 | hx2
    · rcases List.mem_append.mp hx2 with hx3 | hx3
      · exact hacc x hx3
      · simp only [List.mem_singleton] at hx3
        subst hx3
        exact div_nonneg (by linarith) hmi.le
    · subst hx2
      exact zero_le_one
  · rw [if_neg hlt]
    by_cases hgt : e.2.2 < v
    · rw [if_pos hgt, if_neg (ne_of_gt h2)]
      refine ⟨_, rfl, ?_⟩
      intro x hx
      rcases simple_crit_mem fmt e v _ x hx with hx2 | hx2
      · rcases List.mem_append.mp hx2 with hx3 | hx3
        · exact hacc x hx3
        · simp only [List.mem_singleton] at hx3
          subst hx3
          exact div_nonneg (by linarith) h2.le
      · subst hx2
        exact zero_le_one
    · rw [if_neg hgt]
      refine ⟨_, rfl, ?_⟩
      intro x hx
      rcases simple_crit_mem fmt e v _ x hx with hx2 | hx2
      · exact hacc x hx2
      · subst hx2
        exact zero_le_one

theorem simple_step_ok (fmt : ℚ → String) (d : PMsg) (e : String × ℚ × ℚ)
    (acc : List String × List ℚ)
    (h0 : 0 ≤ e.2.1) (h2 : 0 < e.2.2)
    (hz : ∀ v, readParam d e.1 = some v → v < e.2.1 → e.2.1 ≠ 0)
    (hacc : ∀ x ∈ acc.2, 0 ≤ x) :
    ∃ acc2 : List String × List ℚ,
      ML.simple_step fmt d (.ok acc) e = .ok acc2 ∧
      ∀ x ∈ acc2.2, 0 ≤ x := by
  rcases hv : readParam d e.1 with _ | v
  · exact ⟨acc, by simp [ML.simple_step, hv], hacc⟩
  · rcases simple_param_ok fmt e v acc h0 h2 (hz v hv) hacc with
      ⟨acc2, hp, hb⟩
    exact ⟨acc2, by simp [ML.simple_step, hv, hp], hb⟩

theorem simple_fold_ok (fmt : ℚ → String) (d : PMsg) :
    ∀ (l : List (String × ℚ × ℚ)),
      (∀ e ∈ l, 0 ≤ e.2.1 ∧ 0 < e.2.2 ∧
        (∀ v, readParam d e.1 = some v → v < e.2.1 → e.2.1 ≠ 0)) →
      ∀ (acc : List String × List ℚ), (∀ x ∈ acc.2, 0 ≤ x) →
      ∃ acc2 : List String × List ℚ,
        l.foldl (ML.simple_step fmt d) (.ok acc) = .ok acc2 ∧
        ∀ x ∈ acc2.2, 0 ≤ x := by
  intro l
  induction l with
  | nil => intro _ acc hacc; exact ⟨acc, rfl, hacc⟩
  | cons e t ih =>
    intro hl acc hacc
    have he := hl e (by simp)
    rcases simple_step_ok fmt d e acc he.1 he.2.1 he.2.2 hacc with
      ⟨acc1, hstep, hb1⟩
    rcases ih (fun x hx => hl x (by simp [hx])) acc1 hb1 with
      ⟨acc2, hfold, hb2⟩
    exact ⟨acc2, by rw [List.foldl_cons, hstep, hfold], hb2⟩

/-- C4, counterexample.  A reading with `ammonia = -1` makes BOTH
rule-based detectors raise instead of returning a triple: ammonia's
configured normal minimum is 0.0 and the severity expression
`(min_val - value) / min_val` divides by zero
(`anomaly_detection_new.py` line 100, `anomaly_detection_simple.py`
line 65), a `ZeroDivisionError` in Python. -/
theorem claim_C4_counterexample :
    readParam msgAmmonia "ammonia" = some (-1) ∧
    ML.rule_based_detection fmtD msgAmmonia = .error () ∧
    ML.detect_anomaly_simple fmtD msgAmmonia = .error () := by
  decide

/-- C4, amended: for every reading in which no present value lies below
a parameter's ZERO normal minimum (turbidity, ammonia, nitrite,
nitrate, salinity all have min 0.0, so this excludes only negative
values for them), both rule-based detectors return
`(is_anomaly, score, reasons)` with `score ∈ [0, 1]` and `is_anomaly`
true iff `reasons` is non-empty; when such a value is present the
severity computation divides by zero and the call raises instead. -/
theorem claim_C4_amended (fmt : ℚ → String) (d : PMsg)
    (hz : ∀ e ∈ ML.normal_ranges, e.2.1 = 0 →
      ∀ v, readParam d e.1 = some v → 0 ≤ v) :
    (∃ b s rs, ML.rule_based_detection fmt d = .ok (b, s, rs) ∧
      0 ≤ s ∧ s ≤ 1 ∧ (b = true ↔ rs ≠ [])) ∧
    (∃ b s rs, ML.detect_anomaly_simple fmt d = .ok (b, s, rs) ∧
      0 ≤ s ∧ s ≤ 1 ∧ (b = true ↔ rs ≠ [])) := by
  have hbounds : ∀ e ∈ ML.normal_ranges, 0 ≤ e.2.1 ∧ 0 < e.2.2 := by
    decide
  have hconds : ∀ e ∈ ML.normal_ranges, 0 ≤ e.2.1 ∧ 0 < e.2.2 ∧
      (∀ v, readParam d e.1 = some v → v < e.2.1 → e.2.1 ≠ 0) := by
    intro e he
    refine ⟨(hbounds e he).1, (hbounds e he).2, ?_⟩
    intro v hv hlt h0
    have := hz e he h0 v hv
    rw [h0] at hlt
    linarith
  constructor
  · rcases rb_fold_ok fmt d ML.normal_ranges hconds ([], [])
      (by simp) with ⟨acc, hfold, hb⟩
    refine ⟨decide (0 < acc.1.length),
      if acc.2 = [] then 0 else ML.pyMax acc.2, acc.1, ?_, ?_, ?_, ?_⟩
    · simp only [ML.rule_based_detection, hfold]
    · by_cases hs : acc.2 = []
      · rw [if_pos hs]
      · rw [if_neg hs]
        exact pyMax_nonneg acc.2 (fun x hx => (hb x hx).1) hs
    · by_cases hs : acc.2 = []
      · rw [if_pos hs]
        exact zero_le_one
      · rw [if_neg hs]
        exact pyMax_le_one acc.2 (fun x hx => (hb x hx).2) hs
    · simp [decide_eq_true_iff, List.length_pos]
  · rcases simple_fold_ok fmt d ML.normal_ranges
      (fun e he => hconds e he) ([], [])
      (by simp) with ⟨acc, hfold, hb⟩
    refine ⟨decide (0 < acc.1.length),
      if acc.2 = [] then 0 else min (ML.pyMax acc.2) 1, acc.1,
      ?_, ?_, ?_, ?_⟩
    · simp only [ML.detect_anomaly_simple, hfold]
    · by_cases hs : acc.2 = []
      · rw [if_pos hs]
      · rw [if_neg hs]
        exact le_min (pyMax_nonneg acc.2 hb hs) zero_le_one
    · by_cases hs : acc.2 = []
      · rw [if_pos hs]
        exact zero_le_one
      · rw [if_neg hs]
        exact min_le_right _ _
    · simp [decide_eq_true_iff, List.length_pos]

/-- C4, witness: for the empty reading (no parameter present) the
amended theorem yields a well-formed rule-based result. -/
theorem claim_C4_witness :
    ∃ b s rs, ML.rule_based_detection fmtD ({} : PMsg) = .ok (b, s, rs) ∧
      0 ≤ s ∧ s ≤ 1 ∧ (b = true ↔ rs ≠ []) :=
  (claim_C4_amended fmtD ({} : PMsg)
    (by intro e he h0 v hv; fin_cases he <;> simp [readParam] at hv)).1

/-! ### Claim C7 -/

/-- C7: `train_model` on fewer than 50 readings (with scikit-learn
available) does not fit the ML models — it runs
`_configure_rule_based`, which only computes the per-parameter
descriptive statistics (mean/min/max/count), returns them with
`status success, method rule_based`, and sets `is_trained` without
touching the scaler/forests — and every subsequent `detect_anomaly`
call returns exactly the rule-based result (the ML path's
`scaler.transform` raises on the unfitted scaler and the blanket
`except` falls back to `_rule_based_detection`). -/
theorem claim_C7
    (mlFit : ML.DState → List PMsg → ML.DState × ML.TrainResult)
    (mlInfer : ML.DState → PMsg → Except Unit (Bool × ℚ × List String))
    (s : ML.DState) (rs : List PMsg)
    (hsc : s.scaler_fitted = false) (hlen : rs.length < 50) :
    ML.train_model mlFit true s rs =
      ({ is_trained := true, scaler_fitted := false },
       { status := "success", method := some "rule_based",
         parameter_statistics := ML.compute_param_stats rs }) ∧
    ∀ (fmt : ℚ → String) (d : PMsg),
      ML.detect_anomaly mlInfer fmt true (ML.train_model mlFit true s rs).1 d =
        ML.rule_based_detection fmt d := by
  have htm : ML.train_model mlFit true s rs = ML.configure_rule_based s rs := by
    simp [ML.train_model, hlen]
  constructor
  · rw [htm]
    simp [ML.configure_rule_based, hsc]
  · intro fmt d
    rw [htm]
    simp [ML.configure_rule_based, ML.detect_anomaly, ML.ml_detection, hsc]

/-- C7, witness: a concrete small-batch training (empty batch, fresh
detector) leaves `detect_anomaly` returning the rule-based result. -/
theorem claim_C7_witness :
    ML.detect_anomaly (fun _ _ => .ok (false, 0, [])) fmtD true
        (ML.train_model (fun s _ => (s, ⟨"", none, []⟩)) true
          ⟨false, false⟩ []).1 msgAmmonia =
      ML.rule_based_detection fmtD msgAmmonia :=
  (claim_C7 (fun s _ => (s, ⟨"", none, []⟩)) (fun _ _ => .ok (false, 0, []))
    ⟨false, false⟩ [] rfl (by decide)).2 fmtD msgAmmonia

/-! ### Claim C9 -/

/-- C9: whenever `_create_alert` actually creates an alert (for ANY SMS
configuration, so in particular a disabled one): an SMS attempt occurs
only for high/critical severity; the WebSocket broadcast is always
among the produced events; the created alert has `sms_sent = false` and
is exactly the document appended to the store (`send_alert_sms` can
never deliver: disabled configurations return `False` immediately, and
enabled ones die on `logger.time` inside the blanket `except`, also
returning `False`); so `sms_sent = true` would require a successful
delivery.  The embedded function is total — no exception reaches the
caller. -/
theorem claim_C9 (fmt : ℚ → String) (cfg : SmsCfg) (store : List AlertDoc)
    (pond param ty : String) (v : ℚ) (thr : Option ℚ) (sev : Sev)
    (rid : Option Nat) (now : Nat) (s2 : List AlertDoc) (a : AlertDoc)
    (evs : List Event)
    (h : AlertService.create_alert fmt cfg store pond param ty v thr sev
      rid now = (s2, some a, evs)) :
    (∀ e ∈ evs, e.isSms = true → sev = Sev.high ∨ sev = Sev.critical) ∧
    (∃ e ∈ evs, e.isBroadcast = true) ∧
    a.sms_sent = false ∧
    s2 = store ++ [a] ∧
    (a.sms_sent = true → SMS.send_alert_sms cfg = true) := by
  rcases hdq : AlertService.dup_query store pond param ty now with _ | x
  · rw [create_alert_of_none fmt cfg store pond param ty v thr sev rid now
      hdq] at h
    injection h with h1 h2
    injection h2 with h2 h3
    injection h2 with h2
    subst h1
    subst h3
    subst h2
    by_cases hs : sev = Sev.high ∨ sev = Sev.critical
    · refine ⟨?_, ?_, rfl, rfl, ?_⟩
      · intro e he _
        exact hs
      · rw [if_pos hs]
        exact ⟨Event.broadcast pond param sev false, by simp, rfl⟩
      · intro hcontra
        simp [AlertService.new_doc] at hcontra
    · refine ⟨?_, ?_, rfl, rfl, ?_⟩
      · intro e he hsms
        rw [if_neg hs] at he
        simp only [List.mem_singleton] at he
        subst he
        simp [Event.isSms] at hsms
      · rw [if_neg hs]
        exact ⟨Event.broadcast pond param sev false, by simp, rfl⟩
      · intro hcontra
        simp [AlertService.new_doc] at hcontra
  · rw [create_alert_of_some fmt cfg store pond param ty v thr sev rid now
      x hdq] at h
    injection h with h1 h2
    injection h2 with h2 h3
    exact absurd h2 (by simp)

/-- C9, witness: a concrete critical alert created against a DISABLED
SMS configuration still contains the broadcast among its events. -/
theorem claim_C9_witness :
    ∃ e ∈ [Event.sms "p1" "ph" Sev.critical false,
           Event.broadcast "p1" "ph" Sev.critical false],
      e.isBroadcast = true :=
  (claim_C9 fmtD cfgD [] "p1" "ph" "ph_critical" 5.5 (some 6) Sev.critical
    none 0
    [AlertService.new_doc fmtD [] "p1" "ph" "ph_critical" 5.5 (some 6)
      Sev.critical none 0]
    (AlertService.new_doc fmtD [] "p1" "ph" "ph_critical" 5.5 (some 6)
      Sev.critical none 0)
    [Event.sms "p1" "ph" Sev.critical false,
     Event.broadcast "p1" "ph" Sev.critical false]
    (by decide)).2.1

/-! ### Claim C10 -/

/-- C10: for every state of the alert store, `get_active_alerts`
returns at most 100 alerts (`to_list(length=100)`), all unresolved,
sorted newest-first by `created_at`, and every unresolved matching
alert left out is no newer than any returned one; consequently the
`active_alerts` count of `get_alert_statistics` never exceeds 100. -/
theorem claim_C10 (store : List AlertDoc) (pond : Option String)
    (days now : Nat) :
    (AlertService.get_active_alerts store pond).length ≤ 100 ∧
    (∀ a ∈ AlertService.get_active_alerts store pond,
      a.is_resolved = false) ∧
    List.Sorted (fun a b : AlertDoc => b.created_at ≤ a.created_at)
      (AlertService.get_active_alerts store pond) ∧
    (∀ a ∈ AlertService.get_active_alerts store pond, ∀ b ∈ store,
      b.is_resolved = false → (∀ p, pond = some p → b.pond_id = p) →
      b ∉ AlertService.get_active_alerts store pond →
      b.created_at ≤ a.created_at) ∧
    (AlertService.get_alert_statistics store pond days now).active_alerts ≤
      100 := by
  haveI hTot : IsTotal AlertDoc
      (fun a b : AlertDoc => b.created_at ≤ a.created_at) :=
    ⟨fun a b => le_total b.created_at a.created_at⟩
  haveI hTrans : IsTrans AlertDoc
      (fun a b : AlertDoc => b.created_at ≤ a.created_at) :=
    ⟨fun _ _ _ hab hbc => le_trans hbc hab⟩
  obtain ⟨f, hf⟩ : ∃ f : AlertDoc → Bool, f = fun a =>
      !a.is_resolved &&
      (match pond with
       | some p => decide (a.pond_id = p)
       | none => true) := ⟨_, rfl⟩
  obtain ⟨l, hl⟩ : ∃ l : List AlertDoc, l = (store.filter f).insertionSort
      (fun a b : AlertDoc => b.created_at ≤ a.created_at) := ⟨_, rfl⟩
  have hga : AlertService.get_active_alerts store pond = l.take 100 := by
    rw [hl, hf]
    rfl
  have hsorted : List.Sorted
      (fun a b : AlertDoc => b.created_at ≤ a.created_at) l := by
    rw [hl]
    exact List.sorted_insertionSort _ _
  have hperm : List.Perm l (store.filter f) := by
    rw [hl]
    exact List.perm_insertionSort _ _
  have hlen : (AlertService.get_active_alerts store pond).length ≤ 100 := by
    rw [hga]
    simp [List.length_take_le]
  have hmem : ∀ a ∈ AlertService.get_active_alerts store pond,
      a ∈ store.filter f := by
    intro a ha
    rw [hga] at ha
    exact hperm.mem_iff.mp (List.mem_of_mem_take ha)
  refine ⟨hlen, ?_, ?_, ?_, ?_⟩
  · intro a ha
    have h2 := List.of_mem_filter (hmem a ha)
    rw [hf] at h2
    simp only [Bool.and_eq_true, Bool.not_eq_true'] at h2
    exact h2.1
  · rw [hga]
    exact List.Pairwise.sublist (List.take_sublist 100 l) hsorted
  · intro a ha b hb hbres hbpond hbnot
    have hbf : b ∈ store.filter f := by
      refine List.mem_filter.mpr ⟨hb, ?_⟩
      rw [hf]
      cases pond with
      | none => simp [hbres]
      | some p => simp [hbres, hbpond p rfl]
    have hbl : b ∈ l.take 100 ++ l.drop 100 := by
      rw [List.take_append_drop]
      exact hperm.mem_iff.mpr hbf
    rcases List.mem_append.mp hbl with h1 | h1
    · exact absurd (hga ▸ h1) hbnot
    · have hpw : List.Pairwise
          (fun a b : AlertDoc => b.created_at ≤ a.created_at)
          (l.take 100 ++ l.drop 100) := by
        rw [List.take_append_drop]
        exact hsorted
      exact (List.pairwise_append.mp hpw).2.2 a (hga ▸ ha) b h1
  · simpa [AlertService.get_alert_statistics] using hlen

/-- C10, witness: with one unresolved alert in the store, the returned
list contains it and it is unresolved. -/
theorem claim_C10_witness :
    alertA0.is_resolved = false :=
  (claim_C10 [alertA0] none 7 0).2.1 alertA0 (by decide)

end Ocea
